/-
Verification of the ZenBeats procedural audio engine
(src/services/audioService.ts) against its natural-language
specification.

The engine's numeric code is embedded shallowly over ℚ: the
JavaScript sample loops become structurally recursive Lean
functions on streams ℕ → ℚ, and the timer/registry behaviour of
the AudioService class becomes an explicit state machine with a
pending-timer agenda executed in due-time order.
-/
import Mathlib

namespace ZenBeats

/-! ## Basic enumerations (src/types, as used by audioService.ts) -/

/-- The nature-soundscape kinds selectable by `updateNatures`. -/
inductive NatureSound
  | noneN | rain | wind | sea | night | forest | birds
deriving DecidableEq, Repr

/-- The colored-noise bed colors selectable by `updateNoise`. -/
inductive NoiseColor
  | noneC | white | pink | brown
deriving DecidableEq, Repr

/-! ## NoiseBufferFactory: `createNoiseBuffer` (audioService.ts lines 252-291)

The sample loops are embedded over ℚ.  `Math.random()` is modelled as an
arbitrary stream `rand : ℕ → ℚ` of draws; the per-sample white value is
`rand i * 2 - 1` exactly as in the source. -/

/-- Buffer kind argument of `createNoiseBuffer`
(`'white' | 'pink' | 'brown' | 'green'`; the source's `else` branch
covers both `brown` and `green`). -/
inductive BufKind
  | white | pink | brown | green
deriving DecidableEq, Repr

/-- `const white = Math.random() * 2 - 1` for sample `i`. -/
def whiteOf (rand : ℕ → ℚ) (i : ℕ) : ℚ := rand i * 2 - 1

/-- The seven filter states `b0..b6` of the pink-noise loop. -/
structure PinkSt where
  b0 : ℚ
  b1 : ℚ
  b2 : ℚ
  b3 : ℚ
  b4 : ℚ
  b5 : ℚ
  b6 : ℚ
deriving DecidableEq, Repr

/-- One iteration of the pink-noise loop body (lines 262-272):
updates `b0..b5` from the current white sample, emits the output
sample, then refreshes `b6` from the current white sample (so the
`b6` used in the output is the one computed from the previous
sample). Returns (state after the iteration, emitted sample). -/
def pinkStep (st : PinkSt) (white : ℚ) : PinkSt × ℚ :=
  let c0 : ℚ := 0.99886 * st.b0 + white * 0.0555179
  let c1 : ℚ := 0.99332 * st.b1 + white * 0.0750759
  let c2 : ℚ := 0.96900 * st.b2 + white * 0.1538520
  let c3 : ℚ := 0.86650 * st.b3 + white * 0.3104856
  let c4 : ℚ := 0.55000 * st.b4 + white * 0.5329522
  let c5 : ℚ := -0.7616 * st.b5 - white * 0.0168980
  let out : ℚ := (c0 + c1 + c2 + c3 + c4 + c5 + st.b6 + white * 0.5362) * 0.11
  let c6 : ℚ := white * 0.115926
  (⟨c0, c1, c2, c3, c4, c5, c6⟩, out)

/-- The pink filter state held *before* sample `i` is produced
(`let b0=0, b1=0, ... b6=0` before the loop). -/
def pinkStates (w : ℕ → ℚ) : ℕ → PinkSt
  | 0 => ⟨0, 0, 0, 0, 0, 0, 0⟩
  | i + 1 => (pinkStep (pinkStates w i) (w i)).1

/-- The pink-noise sample written to `output[i]`. -/
def pinkOut (w : ℕ → ℚ) (i : ℕ) : ℚ := (pinkStep (pinkStates w i) (w i)).2

/-- The brown-noise loop's `lastOut` value after sample `i` has been
produced (lines 274-280): the recurrence variable is assigned *before*
the `*= 3.5` scaling, with `lastOut = 0.0` initially. -/
def brownW (w : ℕ → ℚ) : ℕ → ℚ
  | 0 => (0 + 0.02 * w 0) / 1.02
  | i + 1 => (brownW w i + 0.02 * w (i + 1)) / 1.02

/-- The brown-noise sample written to `output[i]` (after `output[i] *= 3.5`). -/
def brownOut (w : ℕ → ℚ) (i : ℕ) : ℚ := brownW w i * 3.5

/-- The raw (pre-crossfade) sample sequence produced by the spectral
shaping step of `createNoiseBuffer` for each kind. The `green` kind
falls into the source's `else` branch together with `brown`. -/
def shaped (k : BufKind) (rand : ℕ → ℚ) : ℕ → ℚ :=
  match k with
  | .white => whiteOf rand
  | .pink => pinkOut (whiteOf rand)
  | _ => brownOut (whiteOf rand)

/-- One write of the in-place loop-seam crossfade (lines 285-288):
`output[i] = output[i] * alpha + output[bufferSize - fade + i] * (1 - alpha)`
with `alpha = i / fade`, reading from the *current* (partially
overwritten) buffer. -/
def fadeStep (N W : ℕ) (buf : ℕ → ℚ) (i : ℕ) : ℕ → ℚ :=
  fun j =>
    if j = i then
      buf i * ((i : ℚ) / (W : ℚ)) + buf (N - W + i) * (1 - (i : ℚ) / (W : ℚ))
    else buf j

/-- The crossfade loop after `m` iterations (writes to indices `0..m-1`). -/
def fadeLoop (N W : ℕ) (buf : ℕ → ℚ) : ℕ → (ℕ → ℚ)
  | 0 => buf
  | m + 1 => fadeStep N W (fadeLoop N W buf m) m

/-- `const fade = Math.floor(0.5 * sampleRate)`. -/
def fadeW (rate : ℕ) : ℕ := rate / 2

/-- `const bufferSize = duration * sampleRate` with `duration = 15`. -/
def bufN (rate : ℕ) : ℕ := 15 * rate

/-- The final contents of the buffer returned by `createNoiseBuffer`:
spectral shaping first, then the in-place seam crossfade over the
first `fade` samples. -/
def createNoiseBuffer (k : BufKind) (rand : ℕ → ℚ) (rate : ℕ) : ℕ → ℚ :=
  fadeLoop (bufN rate) (fadeW rate) (shaped k rand) (fadeW rate)

/-! ## ChirpScheduler: the birds lookahead loop (lines 362-395)

`Math.random()` draws are modelled as streams of rationals in `[0, 1)`;
each loop iteration consumes one draw for the chirp count and one for
the inter-burst gap (the per-chirp offset/frequency draws inside the
burst do not influence `nextBirdTime` and are orthogonal to C6). -/

/-- A `Math.random()` draw: a rational in `[0, 1)`. -/
def Rand01 : Type := {q : ℚ // 0 ≤ q ∧ q < 1}

/-- The `while (nextBirdTime < this.ctx.currentTime + scheduleWindow)`
loop of `startBirdsSoundscape`, with `scheduleWindow = 5`: as long as
the horizon is not filled, record one burst
`(startTime, count = 2 + ⌊rand * 3⌋)` and advance `nextBirdTime` by
`6 + rand * 8`.  Returns the scheduled bursts and the final
`nextBirdTime`. -/
def chirpLoop (rc rg : ℕ → Rand01) (now : ℚ) (k : ℕ) (next : ℚ) : List (ℚ × ℕ) × ℚ :=
  if h : next < now + 5 then
    let count : ℕ := 2 + (⌊(rc k).1 * 3⌋).toNat
    let rest := chirpLoop rc rg now (k + 1) (next + (6 + (rg k).1 * 8))
    ((next, count) :: rest.1, rest.2)
  else ([], next)
termination_by (⌈now + 5 - next⌉).toNat
decreasing_by
  have hg : (0 : ℚ) ≤ (rg k).1 := (rg k).2.1
  have h1 : now + 5 - (next + (6 + (rg k).1 * 8)) ≤ now + 5 - next - 6 := by nlinarith
  have h2 : ⌈now + 5 - (next + (6 + (rg k).1 * 8))⌉ ≤ ⌈now + 5 - next - 6⌉ := Int.ceil_mono h1
  have h3 : ⌈now + 5 - next - ((6 : ℤ) : ℚ)⌉ = ⌈now + 5 - next⌉ - (6 : ℤ) :=
    Int.ceil_sub_int (now + 5 - next) 6
  have h4 : (0 : ℤ) < ⌈now + 5 - next⌉ := Int.ceil_pos.mpr (by linarith)
  have h5 : ⌈now + 5 - next - ((6 : ℤ) : ℚ)⌉ = ⌈now + 5 - next - 6⌉ := by norm_num
  omega

/-- The conjunction of loop invariants proved for C6. -/
def ChirpLoopSpec (rc rg : ℕ → Rand01) (now : ℚ) (k : ℕ) (next : ℚ) : Prop :=
  now + 5 ≤ (chirpLoop rc rg now k next).2 ∧
  (∀ p ∈ (chirpLoop rc rg now k next).1, p.1 < now + 5 ∧ 2 ≤ p.2 ∧ p.2 ≤ 4) ∧
  List.Chain' (fun a b : ℚ × ℕ => a.1 + 6 ≤ b.1) (chirpLoop rc rg now k next).1 ∧
  (∀ p ∈ (chirpLoop rc rg now k next).1.head?, next ≤ p.1)

/-! ## TransitionController: gain ramp trajectories (lines 116-130)

A `GainNode.gain` automation timeline is modelled as the function
`ℚ → ℚ` giving the parameter value at each time.  `smoothGain` performs
`cancelScheduledValues(now)`, `setValueAtTime(current, now)`,
`linearRampToValueAtTime(max(0.0001, value), now + time)`: the history
before `now` is kept, and from `now` the value moves linearly from the
current value to the clamped target, staying there afterwards. -/

/-- The trajectory after scheduling a linear ramp at `t0` from the
current value `f t0` to `target` over `dur`. -/
def rampTraj (f : ℚ → ℚ) (t0 target dur : ℚ) : ℚ → ℚ :=
  fun u =>
    if u ≤ t0 then f u
    else if u < t0 + dur then f t0 + (target - f t0) * ((u - t0) / dur)
    else target

/-- `smoothGain(node, value, time)` (lines 116-122). -/
def smoothGainTraj (f : ℚ → ℚ) (t0 v dur : ℚ) : ℚ → ℚ :=
  rampTraj f t0 (max (1 / 10000) v) dur

/-- `setMasterVolume(val)` (lines 128-130): `smoothGain(master,
min(val, 0.95))` with the default 100 ms ramp. -/
def setMasterVolumeTraj (f : ℚ → ℚ) (t0 v : ℚ) : ℚ → ℚ :=
  smoothGainTraj f t0 (min v (19 / 20)) (1 / 10)

/-! ## AudioService state machine (lines 116-250, 293-344, 346-359)

The class's mutable fields, its `natureNodes` registry, and its
outstanding `setTimeout` callbacks are embedded as an explicit state.
Generators (oscillators, buffer sources, LFOs) are identified by their
index in an append-only `gens` list; `stop()` on a node records the
time of the first stop (a second `stop()` throws and is swallowed by
the source's `try/catch`).  `setTimeout` callbacks become `Timer`
values in a pending agenda and are executed in due-time order by
`run`.  Each layer's `internalGain` automation is recorded on the
layer's generators (`gainTarget`, `gainRampEnd`); the master gain's
automation is recorded on the service.  Times are in seconds. -/

/-- `OscillatorNode.type`; the engine's oscillators all use the default
`'sine'`. -/
inductive Waveform
  | sine | square | sawtooth | triangle
deriving DecidableEq, Repr

/-- What kind of sound-producing node a generator is. -/
inductive GenClass
  | oscLeft
  | oscRight
  | natSource (k : NatureSound)
  | natLfo (k : NatureSound)
  | natBreeze (k : NatureSound)
  | noiseSrc (c : NoiseColor)
deriving DecidableEq, Repr

/-- One generator node: its class, creation (`start()`) time, the time
of its `stop()` call if any, oscillator frequency data, the merger
output channel it is connected to, and the last gain-automation command
applied to its layer gain. -/
structure Gen where
  cls : GenClass
  born : ℚ
  stopTime : Option ℚ := none
  freq : ℚ := 0
  freqTarget : ℚ := 0
  chan : ℕ := 0
  wave : Waveform := .sine
  gainTarget : ℚ := 0
  gainRampEnd : ℚ := 0
deriving DecidableEq, Repr

/-- The record stored in the `natureNodes` map for one layer (the
subset of fields the control flow reads: the stoppable generators and
whether a birds lookahead interval exists). -/
structure NatureNode where
  source : Option ℕ := none
  lfo : Option ℕ := none
  breeze : Option ℕ := none
  lookahead : Bool := false
deriving DecidableEq, Repr

/-- An outstanding `setTimeout` callback. `natureStop` captures the
node record and kind closed over by `fadeOutNatureNode`; `noiseStop`
captures the `oldNode` snapshot taken by `updateNoise`; `cleanup` is
the 600 ms teardown scheduled by `stop()`. -/
inductive Timer
  | natureStop (node : NatureNode) (k : NatureSound) (due : ℚ)
  | noiseStop (gid : Option ℕ) (due : ℚ)
  | cleanup (due : ℚ)
deriving DecidableEq, Repr

/-- When a timer fires. -/
def Timer.due : Timer → ℚ
  | .natureStop _ _ d => d
  | .noiseStop _ d => d
  | .cleanup d => d

/-- The AudioService state. -/
structure Svc where
  gens : List Gen := []
  leftOsc : Option ℕ := none
  rightOsc : Option ℕ := none
  natureNodes : List (NatureSound × NatureNode) := []
  colorNoiseNode : Option ℕ := none
  colorNoiseGainRef : Option ℕ := none
  pending : List Timer := []
  masterTarget : ℚ := 0
  masterRampEnd : ℚ := 0
deriving DecidableEq, Repr

/-- `this.RAMP_TIME = 0.1`. -/
def RAMP_TIME : ℚ := 1 / 10

/-- In-place update of the `i`-th generator record. -/
def modifyAt (l : List Gen) (i : ℕ) (f : Gen → Gen) : List Gen :=
  match l, i with
  | [], _ => []
  | g :: gs, 0 => f g :: gs
  | g :: gs, n + 1 => g :: modifyAt gs n f

def modifyGen (s : Svc) (i : ℕ) (f : Gen → Gen) : Svc :=
  { s with gens := modifyAt s.gens i f }

/-- `node.stop()` inside `try { ... } catch(e) {}`: the first stop time
sticks, a later stop throws and is ignored. -/
def stopGenAt (τ : ℚ) (i : ℕ) (s : Svc) : Svc :=
  modifyGen s i fun g =>
    match g.stopTime with
    | some _ => g
    | none => { g with stopTime := some τ }

/-- `node?.stop()` through an optional reference. -/
def stopOptGen (τ : ℚ) (o : Option ℕ) (s : Svc) : Svc :=
  match o with
  | none => s
  | some i => stopGenAt τ i s

/-- `smoothGain(gain, v, dur)` (lines 116-122) applied to the gain
recorded on generator `i`: cancel, hold current value, linear ramp to
`max(0.0001, v)` ending at `τ + dur`. -/
def smoothGainOn (τ v dur : ℚ) (i : ℕ) (s : Svc) : Svc :=
  modifyGen s i fun g => { g with gainTarget := max (1 / 10000) v, gainRampEnd := τ + dur }

/-- The direct `linearRampToValueAtTime(0, now + RAMP_TIME)` used by
`fadeOutNatureNode` (an exact-zero ramp, not `smoothGain`). -/
def rampGainZero (τ : ℚ) (o : Option ℕ) (s : Svc) : Svc :=
  match o with
  | none => s
  | some i => modifyGen s i fun g => { g with gainTarget := 0, gainRampEnd := τ + RAMP_TIME }

/-- `this.natureNodes.has(k)`. -/
def hasKind (k : NatureSound) (l : List (NatureSound × NatureNode)) : Bool :=
  l.any fun p => p.1 = k

/-- `this.natureNodes.set(k, n)`. -/
def setKind (k : NatureSound) (n : NatureNode) (l : List (NatureSound × NatureNode)) :
    List (NatureSound × NatureNode) :=
  if hasKind k l then l.map fun p => if p.1 = k then (k, n) else p
  else l ++ [(k, n)]

/-- `this.natureNodes.delete(k)`. -/
def eraseKind (k : NatureSound) (l : List (NatureSound × NatureNode)) :
    List (NatureSound × NatureNode) :=
  l.filter fun p => decide (p.1 ≠ k)

def pushGen (s : Svc) (g : Gen) : Svc := { s with gens := s.gens ++ [g] }

/-- `fadeOutNatureNode(node, type)` (lines 160-176): ramp the layer's
internal gain to exact zero over `RAMP_TIME`, clear the birds lookahead
interval (the periodic tick is modelled separately by `chirpLoop`), and
schedule the stop + registry deletion `RAMP_TIME * 1000 + 50` ms later.
The map entry is *not* removed now. -/
def fadeOutNatureNode (τ : ℚ) (node : NatureNode) (k : NatureSound) (s : Svc) : Svc :=
  let s1 := rampGainZero τ node.source s
  let s2 := rampGainZero τ node.breeze s1
  { s2 with pending := s2.pending ++ [Timer.natureStop node k (τ + RAMP_TIME + 1 / 20)] }

/-- `cleanupNodes()` (lines 214-224): stop both oscillators now, null
their references, fade out every registered nature layer, stop the
colored-noise source now and null its reference (the `colorNoiseGain`
field survives). -/
def cleanupNodes (τ : ℚ) (s : Svc) : Svc :=
  let s1 := stopOptGen τ s.leftOsc s
  let s2 := stopOptGen τ s1.rightOsc s1
  let s3 := { s2 with leftOsc := none, rightOsc := none }
  let s4 := s3.natureNodes.foldl (fun st p => fadeOutNatureNode τ p.2 p.1 st) s3
  match s4.colorNoiseNode with
  | some i => { stopGenAt τ i s4 with colorNoiseNode := none }
  | none => s4

/-- `startBirdsSoundscape()` (lines 346-359, registry part): create the
breeze source at silent internal gain, ramp the gain to unity, install
the node with a live lookahead interval.  The chirp bursts the
scheduler emits are ephemeral events modelled by `chirpLoop`. -/
def startBirdsSoundscape (τ : ℚ) (s : Svc) : Svc :=
  let i := s.gens.length
  let s1 := pushGen s { cls := .natBreeze .birds, born := τ }
  let s2 := smoothGainOn τ 1 RAMP_TIME i s1
  { s2 with natureNodes := setKind .birds { breeze := some i, lookahead := true } s2.natureNodes }

/-- Which nature kinds create an LFO oscillator (lines 316-340: wind
and sea; rain, night and forest are static). -/
def natureHasLfo (k : NatureSound) : Bool :=
  match k with
  | .wind => true
  | .sea => true
  | _ => false

/-- `startNature(type)` (lines 293-344): `NONE` returns, `BIRDS`
delegates; otherwise create the buffer-source chain at silent internal
gain, start it, ramp the gain to unity, and register the node. -/
def startNature (τ : ℚ) (k : NatureSound) (s : Svc) : Svc :=
  if k = .noneN then s
  else if k = .birds then startBirdsSoundscape τ s
  else
    let i := s.gens.length
    let s1 := pushGen s { cls := .natSource k, born := τ }
    let s2 := if natureHasLfo k then pushGen s1 { cls := .natLfo k, born := τ } else s1
    let lfoId : Option ℕ := if natureHasLfo k then some (i + 1) else none
    let s3 := smoothGainOn τ 1 RAMP_TIME i s2
    { s3 with natureNodes := setKind k { source := some i, lfo := lfoId } s3.natureNodes }

/-- `updateNatures(selected)` (lines 148-158): fade out every
registered kind not in the selection, then start every selected kind
*not currently in the registry* (a kind whose fade-out teardown is
still pending is still in the registry and is skipped). -/
def updateNaturesOp (τ : ℚ) (sel : List NatureSound) (s : Svc) : Svc :=
  let s1 := s.natureNodes.foldl
    (fun st p => if sel.contains p.1 then st else fadeOutNatureNode τ p.2 p.1 st) s
  sel.foldl (fun st n => if hasKind n st.natureNodes then st else startNature τ n st) s1

/-- `updateNoise(color)` (lines 178-197): if a colored-noise gain
exists, ramp it toward silence with `smoothGain(·, 0)` and schedule a
stop of the *captured* node reference 200 ms out; then, unless the new
color is `NONE`, create and start the new source at silent gain and
ramp it to unity. -/
def updateNoiseOp (τ : ℚ) (c : NoiseColor) (s : Svc) : Svc :=
  let s1 :=
    match s.colorNoiseGainRef with
    | some gi =>
      let sa := smoothGainOn τ 0 RAMP_TIME gi s
      { sa with pending := sa.pending ++ [Timer.noiseStop sa.colorNoiseNode (τ + 1 / 5)] }
    | none => s
  if c = .noneC then s1
  else
    let i := s1.gens.length
    let s2 := pushGen s1 { cls := .noiseSrc c, born := τ }
    let s3 := smoothGainOn τ 1 RAMP_TIME i s2
    { s3 with colorNoiseNode := some i, colorNoiseGainRef := some i }

/-- `stop()` (lines 199-212): cancel and linear-ramp the master gain to
exact zero over 0.5 s, and schedule `cleanupNodes` 600 ms out. -/
def stopOp (τ : ℚ) (s : Svc) : Svc :=
  { s with masterTarget := 0, masterRampEnd := τ + 1 / 2,
           pending := s.pending ++ [Timer.cleanup (τ + 3 / 5)] }

/-- `start(natures, noise, freq, targetMasterVolume)` (lines 226-250):
synchronous `cleanupNodes`, create the oscillator pair (left at the
200 Hz base on merger input channel 0, right at `200 + freq` on
channel 1, both default sine) and start it, then `updateNatures`,
`updateNoise`, and a 1 s master ramp to the requested volume. -/
def startOp (τ : ℚ) (natures : List NatureSound) (noise : NoiseColor)
    (freq vol : ℚ) (s : Svc) : Svc :=
  let s1 := cleanupNodes τ s
  let iL := s1.gens.length
  let s2 := pushGen s1 { cls := .oscLeft, born := τ, freq := 200, freqTarget := 200, chan := 0 }
  let s3 := pushGen s2
    { cls := .oscRight, born := τ, freq := 200 + freq, freqTarget := 200 + freq, chan := 1 }
  let s4 := { s3 with leftOsc := some iL, rightOsc := some (iL + 1) }
  let s5 := updateNaturesOp τ natures s4
  let s6 := updateNoiseOp τ noise s5
  { s6 with masterTarget := max (1 / 10000) vol, masterRampEnd := τ + 1 }

/-- `updateFrequency(freq)` (lines 140-146): if a right oscillator
exists, retarget only its frequency toward `binauralBaseFreq + freq`. -/
def updateFrequencyOp (f : ℚ) (s : Svc) : Svc :=
  match s.rightOsc with
  | some i => modifyGen s i fun g => { g with freqTarget := 200 + f }
  | none => s

/-- Execute one fired `setTimeout` callback. -/
def fireTimer (s : Svc) : Timer → Svc
  | .natureStop node k due =>
    let s1 := stopOptGen due node.source s
    let s2 := stopOptGen due node.lfo s1
    let s3 := stopOptGen due node.breeze s2
    { s3 with natureNodes := eraseKind k s3.natureNodes }
  | .noiseStop gid due => stopOptGen due gid s
  | .cleanup due => cleanupNodes due s

/-- Select the earliest-due pending timer (ties resolved in scheduling
order, as the host's timer queue does). -/
def popEarliest : List Timer → Option (Timer × List Timer)
  | [] => none
  | t :: ts =>
    match popEarliest ts with
    | none => some (t, [])
    | some (m, rest) => if t.due ≤ m.due then some (t, ts) else some (m, t :: rest)

/-- Let the pending timers fire in due order (fuel-bounded; every
scenario below is given ample fuel and ends with an empty agenda). -/
def run : ℕ → Svc → Svc
  | 0, s => s
  | n + 1, s =>
    match popEarliest s.pending with
    | none => s
    | some (tm, rest) => run n (fireTimer { s with pending := rest } tm)

/-- A generator is audible-capable ("playing") at time `u` once started
and strictly before its stop time. -/
def Gen.aliveAt (g : Gen) (u : ℚ) : Prop :=
  g.born ≤ u ∧ ∀ e, g.stopTime = some e → u < e

/-- A fresh engine after `init()`. -/
def initSvc : Svc := {}

/-- A playing session: `start([SEA], PINK, 5, 0.6)` at time 0 on a
fresh engine.  No timers are pending afterwards. -/
def sPlay : Svc := startOp 0 [.sea] .pink 5 (3 / 5) initSvc

/-- A playing session with a birds layer as well (used for C2 so that a
breeze generator is among the per-layer generators). -/
def sPlay2 : Svc := startOp 0 [.sea, .birds] .pink 5 (3 / 5) initSvc

/-- A playing session whose only nature layer is the birds soundscape
(used alongside `sPlay` for C2, covering the breeze generator). -/
def sPlayB : Svc := startOp 0 [.birds] .pink 5 (3 / 5) initSvc

/-! ### C1: remove-then-re-add during a pending fade-out teardown -/

/-- The C1 failing trace: with a sea layer playing, `updateNatures` is
called with `[SEA]` at t=1 (redundant add), `[]` at t=2 (remove: fade
out, teardown timer due t=2.15), `[SEA]` again at t=2.1 while the
teardown is pending, and then the pending timers fire. -/
def scene1 : Svc :=
  run 3 (updateNaturesOp (21 / 10) [.sea] (updateNaturesOp 2 [] (updateNaturesOp 1 [.sea] sPlay)))

/-! ### C9: binaural pair structure

`start` places the two oscillators at the first two indices after the
prior generator list; the subsequent `updateNatures`/`updateNoise`
calls only append generators or adjust gain/stop bookkeeping, so the
oscillator parameters (class, birth, frequency, merger channel,
waveform) survive to the returned state.  `Gen.sig` is that preserved
signature. -/

/-- The oscillator-relevant signature of a generator. -/
def Gen.sig (g : Gen) : GenClass × ℚ × ℚ × ℚ × ℕ × Waveform :=
  (g.cls, g.born, g.freq, g.freqTarget, g.chan, g.wave)

/-- `s'` extends `s`: the generator list only grew, and every existing
generator kept its signature. -/
def SigExt (s s' : Svc) : Prop :=
  s.gens.length ≤ s'.gens.length ∧
  ∀ j, j < s.gens.length → (s'.gens.get? j).map Gen.sig = (s.gens.get? j).map Gen.sig

/-! ### C8: stop() immediately followed by start()

`stop()` fires at time `t` on the playing sea+pink session and
`start([SEA, WIND], PINK, 5, 0.6)` at `tp` with `t < tp < t + 0.6`,
i.e. before the stop teardown has completed.  The pending agenda then
holds three timers whose relative order depends on `tp - t`; all
interleavings are executed and yield the same generator lifetimes. -/

/-- The state right after the start call: `stop` at `t` on `sPlay`,
`start([SEA, WIND], PINK, 5, 0.6)` at `tp`. -/
def stopStart (t tp : ℚ) : Svc := startOp tp [.sea, .wind] .pink 5 (3 / 5) (stopOp t sPlay)

/-- The C8 scenario after all pending timers have fired. -/
def scene8 (t tp : ℚ) : Svc := run 8 (stopStart t tp)

/-- The sea node registered by `sPlay` (generators 2 and 3). -/
def seaNode : NatureNode := { source := some 2, lfo := some 3 }

/-- The wind node created by the restart (generators 7 and 8). -/
def windNode : NatureNode := { source := some 7, lfo := some 8 }

/-- The 600 ms teardown scheduled by `stop()` at `t`. -/
def tCl (t : ℚ) : Timer := .cleanup (t + 3 / 5)

/-- The sea fade-out teardown scheduled by the start call's synchronous
`cleanupNodes` at `tp`. -/
def tSea (tp : ℚ) : Timer := .natureStop seaNode .sea (tp + RAMP_TIME + 1 / 20)

/-- The no-op old-noise stop scheduled by `updateNoise` (the old node
reference was already nulled by `cleanupNodes`). -/
def tNoi (tp : ℚ) : Timer := .noiseStop none (tp + 1 / 5)

/-- The second sea teardown spawned when the delayed cleanup finds the
sea entry still registered (regions where `tp + 0.15 > t + 0.6`). -/
def tSea2 (t : ℚ) : Timer := .natureStop seaNode .sea (t + 3 / 5 + RAMP_TIME + 1 / 20)

/-- The wind teardown spawned by the delayed cleanup. -/
def tWind (t : ℚ) : Timer := .natureStop windNode .wind (t + 3 / 5 + RAMP_TIME + 1 / 20)

/-- The C8 pre-run state, written out: the old session's oscillators
and noise source were stopped at `tp` by the start call's synchronous
`cleanupNodes`, the old sea layer is fading (teardown pending), and the
new session's oscillator pair, wind layer and noise bed are running. -/
def S0x (t tp : ℚ) : Svc :=
  { gens := [
      { cls := .oscLeft, born := 0, freq := 200, freqTarget := 200, chan := 0,
        stopTime := some tp },
      { cls := .oscRight, born := 0, freq := 200 + 5, freqTarget := 200 + 5, chan := 1,
        stopTime := some tp },
      { cls := .natSource .sea, born := 0, gainTarget := 0, gainRampEnd := tp + RAMP_TIME },
      { cls := .natLfo .sea, born := 0 },
      { cls := .noiseSrc .pink, born := 0, stopTime := some tp,
        gainTarget := max (1 / 10000) 0, gainRampEnd := tp + RAMP_TIME },
      { cls := .oscLeft, born := tp, freq := 200, freqTarget := 200, chan := 0 },
      { cls := .oscRight, born := tp, freq := 200 + 5, freqTarget := 200 + 5, chan := 1 },
      { cls := .natSource .wind, born := tp, gainTarget := max (1 / 10000) 1,
        gainRampEnd := tp + RAMP_TIME },
      { cls := .natLfo .wind, born := tp },
      { cls := .noiseSrc .pink, born := tp, gainTarget := max (1 / 10000) 1,
        gainRampEnd := tp + RAMP_TIME }],
    leftOsc := some 5, rightOsc := some 6,
    natureNodes := [(.sea, seaNode), (.wind, windNode)],
    colorNoiseNode := some 9, colorNoiseGainRef := some 9,
    pending := [tCl t, tSea tp, tNoi tp],
    masterTarget := max (1 / 10000) (3 / 5), masterRampEnd := tp + 1 }

/-- After the sea fade-out teardown fired (regions A/B). -/
def X1x (t tp : ℚ) : Svc :=
  { S0x t tp with
    gens := [
      { cls := .oscLeft, born := 0, freq := 200, freqTarget := 200, chan := 0,
        stopTime := some tp },
      { cls := .oscRight, born := 0, freq := 200 + 5, freqTarget := 200 + 5, chan := 1,
        stopTime := some tp },
      { cls := .natSource .sea, born := 0, stopTime := some (tp + RAMP_TIME + 1 / 20),
        gainTarget := 0, gainRampEnd := tp + RAMP_TIME },
      { cls := .natLfo .sea, born := 0, stopTime := some (tp + RAMP_TIME + 1 / 20) },
      { cls := .noiseSrc .pink, born := 0, stopTime := some tp,
        gainTarget := max (1 / 10000) 0, gainRampEnd := tp + RAMP_TIME },
      { cls := .oscLeft, born := tp, freq := 200, freqTarget := 200, chan := 0 },
      { cls := .oscRight, born := tp, freq := 200 + 5, freqTarget := 200 + 5, chan := 1 },
      { cls := .natSource .wind, born := tp, gainTarget := max (1 / 10000) 1,
        gainRampEnd := tp + RAMP_TIME },
      { cls := .natLfo .wind, born := tp },
      { cls := .noiseSrc .pink, born := tp, gainTarget := max (1 / 10000) 1,
        gainRampEnd := tp + RAMP_TIME }],
    natureNodes := [(.wind, windNode)],
    pending := [tCl t, tNoi tp] }

/-- After the delayed stop-cleanup also fired (regions A/B): the new
session's oscillators and noise are stopped at `t + 0.6` and the wind
layer is fading. -/
def XA3x (t tp : ℚ) : Svc :=
  { X1x t tp with
    gens := [
      { cls := .oscLeft, born := 0, freq := 200, freqTarget := 200, chan := 0,
        stopTime := some tp },
      { cls := .oscRight, born := 0, freq := 200 + 5, freqTarget := 200 + 5, chan := 1,
        stopTime := some tp },
      { cls := .natSource .sea, born := 0, stopTime := some (tp + RAMP_TIME + 1 / 20),
        gainTarget := 0, gainRampEnd := tp + RAMP_TIME },
      { cls := .natLfo .sea, born := 0, stopTime := some (tp + RAMP_TIME + 1 / 20) },
      { cls := .noiseSrc .pink, born := 0, stopTime := some tp,
        gainTarget := max (1 / 10000) 0, gainRampEnd := tp + RAMP_TIME },
      { cls := .oscLeft, born := tp, freq := 200, freqTarget := 200, chan := 0,
        stopTime := some (t + 3 / 5) },
      { cls := .oscRight, born := tp, freq := 200 + 5, freqTarget := 200 + 5, chan := 1,
        stopTime := some (t + 3 / 5) },
      { cls := .natSource .wind, born := tp, gainTarget := 0,
        gainRampEnd := t + 3 / 5 + RAMP_TIME },
      { cls := .natLfo .wind, born := tp },
      { cls := .noiseSrc .pink, born := tp, stopTime := some (t + 3 / 5),
        gainTarget := max (1 / 10000) 1, gainRampEnd := tp + RAMP_TIME }],
    leftOsc := none, rightOsc := none,
    colorNoiseNode := none,
    pending := [tWind t] }

/-- Final state, regions A/B: the wind teardown has also fired. -/
def XA4x (t tp : ℚ) : Svc :=
  { XA3x t tp with
    gens := [
      { cls := .oscLeft, born := 0, freq := 200, freqTarget := 200, chan := 0,
        stopTime := some tp },
      { cls := .oscRight, born := 0, freq := 200 + 5, freqTarget := 200 + 5, chan := 1,
        stopTime := some tp },
      { cls := .natSource .sea, born := 0, stopTime := some (tp + RAMP_TIME + 1 / 20),
        gainTarget := 0, gainRampEnd := tp + RAMP_TIME },
      { cls := .natLfo .sea, born := 0, stopTime := some (tp + RAMP_TIME + 1 / 20) },
      { cls := .noiseSrc .pink, born := 0, stopTime := some tp,
        gainTarget := max (1 / 10000) 0, gainRampEnd := tp + RAMP_TIME },
      { cls := .oscLeft, born := tp, freq := 200, freqTarget := 200, chan := 0,
        stopTime := some (t + 3 / 5) },
      { cls := .oscRight, born := tp, freq := 200 + 5, freqTarget := 200 + 5, chan := 1,
        stopTime := some (t + 3 / 5) },
      { cls := .natSource .wind, born := tp, stopTime := some (t + 3 / 5 + RAMP_TIME + 1 / 20),
        gainTarget := 0, gainRampEnd := t + 3 / 5 + RAMP_TIME },
      { cls := .natLfo .wind, born := tp, stopTime := some (t + 3 / 5 + RAMP_TIME + 1 / 20) },
      { cls := .noiseSrc .pink, born := tp, stopTime := some (t + 3 / 5),
        gainTarget := max (1 / 10000) 1, gainRampEnd := tp + RAMP_TIME }],
    natureNodes := [],
    pending := [] }

/-- After the delayed cleanup fired first (regions C1/C2): the sea
entry was still registered, so the cleanup re-faded it and spawned a
second sea teardown alongside the wind teardown. -/
def Y1x (t tp : ℚ) : Svc :=
  { S0x t tp with
    gens := [
      { cls := .oscLeft, born := 0, freq := 200, freqTarget := 200, chan := 0,
        stopTime := some tp },
      { cls := .oscRight, born := 0, freq := 200 + 5, freqTarget := 200 + 5, chan := 1,
        stopTime := some tp },
      { cls := .natSource .sea, born := 0, gainTarget := 0,
        gainRampEnd := t + 3 / 5 + RAMP_TIME },
      { cls := .natLfo .sea, born := 0 },
      { cls := .noiseSrc .pink, born := 0, stopTime := some tp,
        gainTarget := max (1 / 10000) 0, gainRampEnd := tp + RAMP_TIME },
      { cls := .oscLeft, born := tp, freq := 200, freqTarget := 200, chan := 0,
        stopTime := some (t + 3 / 5) },
      { cls := .oscRight, born := tp, freq := 200 + 5, freqTarget := 200 + 5, chan := 1,
        stopTime := some (t + 3 / 5) },
      { cls := .natSource .wind, born := tp, gainTarget := 0,
        gainRampEnd := t + 3 / 5 + RAMP_TIME },
      { cls := .natLfo .wind, born := tp },
      { cls := .noiseSrc .pink, born := tp, stopTime := some (t + 3 / 5),
        gainTarget := max (1 / 10000) 1, gainRampEnd := tp + RAMP_TIME }],
    leftOsc := none, rightOsc := none,
    colorNoiseNode := none,
    pending := [tSea tp, tNoi tp, tSea2 t, tWind t] }

/-- Regions C1/C2 after the (first) sea teardown fired. -/
def Y2x (t tp : ℚ) : Svc :=
  { Y1x t tp with
    gens := [
      { cls := .oscLeft, born := 0, freq := 200, freqTarget := 200, chan := 0,
        stopTime := some tp },
      { cls := .oscRight, born := 0, freq := 200 + 5, freqTarget := 200 + 5, chan := 1,
        stopTime := some tp },
      { cls := .natSource .sea, born := 0, stopTime := some (tp + RAMP_TIME + 1 / 20),
        gainTarget := 0, gainRampEnd := t + 3 / 5 + RAMP_TIME },
      { cls := .natLfo .sea, born := 0, stopTime := some (tp + RAMP_TIME + 1 / 20) },
      { cls := .noiseSrc .pink, born := 0, stopTime := some tp,
        gainTarget := max (1 / 10000) 0, gainRampEnd := tp + RAMP_TIME },
      { cls := .oscLeft, born := tp, freq := 200, freqTarget := 200, chan := 0,
        stopTime := some (t + 3 / 5) },
      { cls := .oscRight, born := tp, freq := 200 + 5, freqTarget := 200 + 5, chan := 1,
        stopTime := some (t + 3 / 5) },
      { cls := .natSource .wind, born := tp, gainTarget := 0,
        gainRampEnd := t + 3 / 5 + RAMP_TIME },
      { cls := .natLfo .wind, born := tp },
      { cls := .noiseSrc .pink, born := tp, stopTime := some (t + 3 / 5),
        gainTarget := max (1 / 10000) 1, gainRampEnd := tp + RAMP_TIME }],
    natureNodes := [(.wind, windNode)],
    pending := [tNoi tp, tSea2 t, tWind t] }

/-- Final state, regions C1/C2 (the duplicate sea teardown and the
noise no-op change nothing besides draining the agenda). -/
def YC5x (t tp : ℚ) : Svc :=
  { Y2x t tp with
    gens := [
      { cls := .oscLeft, born := 0, freq := 200, freqTarget := 200, chan := 0,
        stopTime := some tp },
      { cls := .oscRight, born := 0, freq := 200 + 5, freqTarget := 200 + 5, chan := 1,
        stopTime := some tp },
      { cls := .natSource .sea, born := 0, stopTime := some (tp + RAMP_TIME + 1 / 20),
        gainTarget := 0, gainRampEnd := t + 3 / 5 + RAMP_TIME },
      { cls := .natLfo .sea, born := 0, stopTime := some (tp + RAMP_TIME + 1 / 20) },
      { cls := .noiseSrc .pink, born := 0, stopTime := some tp,
        gainTarget := max (1 / 10000) 0, gainRampEnd := tp + RAMP_TIME },
      { cls := .oscLeft, born := tp, freq := 200, freqTarget := 200, chan := 0,
        stopTime := some (t + 3 / 5) },
      { cls := .oscRight, born := tp, freq := 200 + 5, freqTarget := 200 + 5, chan := 1,
        stopTime := some (t + 3 / 5) },
      { cls := .natSource .wind, born := tp, stopTime := some (t + 3 / 5 + RAMP_TIME + 1 / 20),
        gainTarget := 0, gainRampEnd := t + 3 / 5 + RAMP_TIME },
      { cls := .natLfo .wind, born := tp, stopTime := some (t + 3 / 5 + RAMP_TIME + 1 / 20) },
      { cls := .noiseSrc .pink, born := tp, stopTime := some (t + 3 / 5),
        gainTarget := max (1 / 10000) 1, gainRampEnd := tp + RAMP_TIME }],
    natureNodes := [],
    pending := [] }

/-- A generator's lifetime record: class, birth time, stop time. -/
def Gen.life (g : Gen) : GenClass × ℚ × Option ℚ := (g.cls, g.born, g.stopTime)

/-- Aliveness in terms of a lifetime record. -/
def aliveLife (l : GenClass × ℚ × Option ℚ) (u : ℚ) : Prop :=
  l.2.1 ≤ u ∧ ∀ e, l.2.2 = some e → u < e

/-- The lifetimes of the ten generators of the C8 scenario, identical
in every timer interleaving: the old session's generators stop at `tp`
(oscillators, noise; synchronously in the start call) or `tp + 0.15`
(sea source and LFO, by their fade-out teardown); the restarted
session's generators are then killed by the still-pending stop cleanup
at `t + 0.6` / `t + 0.75`. -/
def lifeList (t tp : ℚ) : List (GenClass × ℚ × Option ℚ) :=
  [(.oscLeft, 0, some tp),
   (.oscRight, 0, some tp),
   (.natSource .sea, 0, some (tp + RAMP_TIME + 1 / 20)),
   (.natLfo .sea, 0, some (tp + RAMP_TIME + 1 / 20)),
   (.noiseSrc .pink, 0, some tp),
   (.oscLeft, tp, some (t + 3 / 5)),
   (.oscRight, tp, some (t + 3 / 5)),
   (.natSource .wind, tp, some (t + 3 / 5 + RAMP_TIME + 1 / 20)),
   (.natLfo .wind, tp, some (t + 3 / 5 + RAMP_TIME + 1 / 20)),
   (.noiseSrc .pink, tp, some (t + 3 / 5))]


/-! ### Crossfade loop characterisation -/

/-- After `m ≤ W` iterations the in-place crossfade has rewritten exactly
the indices `j < m`, and each rewritten sample was computed from the
*original* (pre-blend) buffer: the tail reads `N - W + j ≥ j ≥ m` never
hit an already-overwritten slot. -/
theorem fadeLoop_eq (N W : ℕ) (buf : ℕ → ℚ) :
    ∀ m, m ≤ W → ∀ j,
      fadeLoop N W buf m j =
        if j < m then
          buf j * ((j : ℚ) / (W : ℚ)) + buf (N - W + j) * (1 - (j : ℚ) / (W : ℚ))
        else buf j := by
  intro m
  induction m with
  | zero => intro _ j; simp [fadeLoop]
  | succ m ih =>
    intro hm j
    have hm' : m ≤ W := Nat.le_of_succ_le hm
    have hread : ¬ (N - W + m < m) := by omega
    simp only [fadeLoop, fadeStep]
    by_cases hj : j = m
    · subst hj
      rw [if_pos rfl, ih hm' j, ih hm' (N - W + j), if_neg hread,
        if_neg (lt_irrefl j), if_pos (Nat.lt_succ_self j)]
    · rw [if_neg hj, ih hm' j]
      by_cases hjm : j < m
      · rw [if_pos hjm, if_pos (Nat.lt_succ_of_lt hjm)]
      · rw [if_neg hjm, if_neg (by omega)]

/-- Closed form of the brown-noise recurrence variable on a constant
white stream, used to exhibit samples escaping `[-1, 1]`. -/
theorem brownW_const (c : ℚ) : ∀ i, brownW (fun _ => c) i = c * (1 - (50 / 51) ^ (i + 1)) := by
  intro i
  induction i with
  | zero => simp [brownW]; ring
  | succ n ih =>
    rw [brownW, ih]
    rw [pow_succ]
    norm_num
    ring

/-- C3: every pink-noise sample equals
`(b0 + b1 + b2 + b3 + b4 + b5 + b6 + 0.5362 * white) * 0.11` where
`b0..b5` are the states *after* being updated from the current white
sample with the six fixed coefficient pairs, and the `b6` term used at
sample `i` is `0.115926` times the white value of sample `i - 1`
(zero for the first sample). -/
theorem pink_sample_formula (w : ℕ → ℚ) (i : ℕ) :
    (pinkStates w (i + 1)).b0 = 0.99886 * (pinkStates w i).b0 + 0.0555179 * w i ∧
    (pinkStates w (i + 1)).b1 = 0.99332 * (pinkStates w i).b1 + 0.0750759 * w i ∧
    (pinkStates w (i + 1)).b2 = 0.96900 * (pinkStates w i).b2 + 0.1538520 * w i ∧
    (pinkStates w (i + 1)).b3 = 0.86650 * (pinkStates w i).b3 + 0.3104856 * w i ∧
    (pinkStates w (i + 1)).b4 = 0.55000 * (pinkStates w i).b4 + 0.5329522 * w i ∧
    (pinkStates w (i + 1)).b5 = -0.7616 * (pinkStates w i).b5 + -0.0168980 * w i ∧
    (pinkStates w i).b6 = (if i = 0 then 0 else 0.115926 * w (i - 1)) ∧
    pinkOut w i =
      ((pinkStates w (i + 1)).b0 + (pinkStates w (i + 1)).b1 + (pinkStates w (i + 1)).b2 +
        (pinkStates w (i + 1)).b3 + (pinkStates w (i + 1)).b4 + (pinkStates w (i + 1)).b5 +
        (pinkStates w i).b6 + 0.5362 * w i) * 0.11 := by
  refine ⟨?_, ?_, ?_, ?_, ?_, ?_, ?_, ?_⟩
  · show (pinkStep (pinkStates w i) (w i)).1.b0 = _; simp [pinkStep]; ring
  · show (pinkStep (pinkStates w i) (w i)).1.b1 = _; simp [pinkStep]; ring
  · show (pinkStep (pinkStates w i) (w i)).1.b2 = _; simp [pinkStep]; ring
  · show (pinkStep (pinkStates w i) (w i)).1.b3 = _; simp [pinkStep]; ring
  · show (pinkStep (pinkStates w i) (w i)).1.b4 = _; simp [pinkStep]; ring
  · show (pinkStep (pinkStates w i) (w i)).1.b5 = _; simp [pinkStep]; ring
  · cases i with
    | zero => simp [pinkStates]
    | succ n =>
      show (pinkStep (pinkStates w n) (w n)).1.b6 = _
      simp [pinkStep]; ring
  · show (pinkStep (pinkStates w i) (w i)).2 = _
    simp only [pinkStates, pinkStep]
    ring

/-- C10: every brown-noise sample stored by the generator is exactly
`3.5 * w i` where `w` is the pre-scaling leaky-integrator recurrence
`w i = (w (i-1) + 0.02 * white i) / 1.02` with `w (-1) = 0` (the
recurrence is carried on the pre-scaling value, because `lastOut` is
assigned before the `*= 3.5`), and no clamp is applied: on a constant
near-full-scale white stream the 20th sample already exceeds 1. -/
theorem brown_sample_formula :
    (∀ w : ℕ → ℚ, ∀ i, brownOut w i = 3.5 * brownW w i) ∧
    (∀ w : ℕ → ℚ, brownW w 0 = (0 + 0.02 * w 0) / 1.02) ∧
    (∀ w : ℕ → ℚ, ∀ i, brownW w (i + 1) = (brownW w i + 0.02 * w (i + 1)) / 1.02) ∧
    (∀ rand : ℕ → ℚ, ∀ i, shaped .brown rand i = 3.5 * brownW (whiteOf rand) i) ∧
    1 < brownOut (fun _ => 499 / 500) 19 := by
  refine ⟨fun w i => by rw [brownOut]; ring, fun w => rfl, fun w i => rfl,
    fun rand i => by show brownOut (whiteOf rand) i = _; rw [brownOut]; ring, ?_⟩
  rw [brownOut, brownW_const]
  norm_num

/-- C4: for every noise color, the buffer returned by
`createNoiseBuffer` carries the seam crossfade applied *after* the
spectral shaping step: each of the first `W = ⌊0.5 * sampleRate⌋`
samples equals `raw[i] * (i/W) + raw[N-W+i] * (1 - i/W)` of the
pre-blend (shaped) samples, all later samples are the shaped samples
unchanged, and sample 0 equals the pre-blend sample at index `N - W`
exactly. -/
theorem crossfade_after_shaping (k : BufKind) (rand : ℕ → ℚ) (rate : ℕ) (h : 2 ≤ rate) :
    (∀ i, i < fadeW rate → createNoiseBuffer k rand rate i =
        shaped k rand i * ((i : ℚ) / (fadeW rate : ℚ)) +
          shaped k rand (bufN rate - fadeW rate + i) * (1 - (i : ℚ) / (fadeW rate : ℚ))) ∧
    (∀ i, fadeW rate ≤ i → createNoiseBuffer k rand rate i = shaped k rand i) ∧
    createNoiseBuffer k rand rate 0 = shaped k rand (bufN rate - fadeW rate) := by
  have key := fadeLoop_eq (bufN rate) (fadeW rate) (shaped k rand) (fadeW rate) le_rfl
  refine ⟨fun i hi => by rw [createNoiseBuffer, key i, if_pos hi], ?_, ?_⟩
  · intro i hi
    rw [createNoiseBuffer, key i, if_neg (not_lt.mpr hi)]
  · have h0 : 0 < fadeW rate := by
      rw [fadeW]; omega
    rw [createNoiseBuffer, key 0, if_pos h0]
    simp

/-- Witness for `crossfade_after_shaping` at `rate = 2`, white noise,
zero random stream. -/
theorem crossfade_after_shaping_witness :
    (2 ≤ 2) ∧
    ((∀ i, i < fadeW 2 → createNoiseBuffer .white (fun _ => 0) 2 i =
        shaped .white (fun _ => 0) i * ((i : ℚ) / (fadeW 2 : ℚ)) +
          shaped .white (fun _ => 0) (bufN 2 - fadeW 2 + i) * (1 - (i : ℚ) / (fadeW 2 : ℚ))) ∧
    (∀ i, fadeW 2 ≤ i → createNoiseBuffer .white (fun _ => 0) 2 i = shaped .white (fun _ => 0) i) ∧
    createNoiseBuffer .white (fun _ => 0) 2 0 = shaped .white (fun _ => 0) (bufN 2 - fadeW 2)) :=
  ⟨by decide, crossfade_after_shaping .white (fun _ => 0) 2 (by decide)⟩

/-- The termination measure of the scheduling loop strictly decreases:
each iteration advances `nextBirdTime` by `6 + rand * 8 ≥ 6`. -/
theorem ceil_gap_lt (now next g : ℚ) (hg : 0 ≤ g) (h : next < now + 5) :
    (⌈now + 5 - (next + (6 + g * 8))⌉).toNat < (⌈now + 5 - next⌉).toNat := by
  have h1 : now + 5 - (next + (6 + g * 8)) ≤ now + 5 - next - 6 := by nlinarith
  have h2 : ⌈now + 5 - (next + (6 + g * 8))⌉ ≤ ⌈now + 5 - next - 6⌉ := Int.ceil_mono h1
  have h3 : ⌈now + 5 - next - ((6 : ℤ) : ℚ)⌉ = ⌈now + 5 - next⌉ - (6 : ℤ) :=
    Int.ceil_sub_int (now + 5 - next) 6
  have h4 : (0 : ℤ) < ⌈now + 5 - next⌉ := Int.ceil_pos.mpr (by linarith)
  have h5 : ⌈now + 5 - next - ((6 : ℤ) : ℚ)⌉ = ⌈now + 5 - next - 6⌉ := by norm_num
  omega

theorem chirpLoopSpec_holds (rc rg : ℕ → Rand01) (now : ℚ) :
    ∀ n k (next : ℚ), (⌈now + 5 - next⌉).toNat ≤ n → ChirpLoopSpec rc rg now k next := by
  intro n
  induction n with
  | zero =>
    intro k next hn
    have hstop : ¬ next < now + 5 := by
      intro hlt
      have := Int.ceil_pos.mpr (show (0 : ℚ) < now + 5 - next by linarith)
      omega
    rw [ChirpLoopSpec, chirpLoop, dif_neg hstop]
    refine ⟨by linarith [not_lt.mp hstop], by simp, by simp, by simp⟩
  | succ n ih =>
    intro k next hn
    by_cases h : next < now + 5
    · have hg0 : (0 : ℚ) ≤ (rg k).1 := (rg k).2.1
      have hg1 : (rg k).1 < 1 := (rg k).2.2
      have hdec := ceil_gap_lt now next (rg k).1 hg0 h
      have hrec := ih (k + 1) (next + (6 + (rg k).1 * 8)) (by omega)
      obtain ⟨ih1, ih2, ih3, ih4⟩ := hrec
      rw [ChirpLoopSpec, chirpLoop, dif_pos h]
      have hcount : 2 + (⌊(rc k).1 * 3⌋).toNat ≤ 4 := by
        have hlt3 : (rc k).1 * 3 < 3 := by nlinarith [(rc k).2.2]
        have : ⌊(rc k).1 * 3⌋ < 3 := Int.floor_lt.mpr (by exact_mod_cast hlt3)
        omega
      refine ⟨ih1, ?_, ?_, ?_⟩
      · intro p hp
        rcases List.mem_cons.mp hp with hphd | hptl
        · subst hphd
          exact ⟨h, by omega, hcount⟩
        · exact ih2 p hptl
      · refine List.chain'_cons'.mpr ⟨?_, ih3⟩
        intro b hb
        have := ih4 b hb
        simp only at this ⊢
        nlinarith
      · intro p hp
        simp only [List.head?_cons, Option.mem_def, Option.some.injEq] at hp
        subst hp
        simp
    · rw [ChirpLoopSpec, chirpLoop, dif_neg h]
      refine ⟨by linarith [not_lt.mp h], by simp, by simp, by simp⟩

/-- C6: each firing of the birds lookahead tick schedules bursts while
`nextBirdTime < now + 5`; the loop terminates (`chirpLoop` is total:
every iteration advances `nextBirdTime` by `6 + rand * 8 ≥ 6`) and on
completion `nextBirdTime ≥ now + 5`, every scheduled burst lies before
`now + 5` (so the 5-second horizon is fully covered and a tick delayed
by up to the window finds its events already scheduled), consecutive
bursts are at least the minimum gap 6 apart, and the first burst is not
scheduled before the incoming `nextBirdTime`. -/
theorem chirp_lookahead_horizon (rc rg : ℕ → Rand01) (now : ℚ) (k : ℕ) (next : ℚ) :
    now + 5 ≤ (chirpLoop rc rg now k next).2 ∧
    (∀ p ∈ (chirpLoop rc rg now k next).1, p.1 < now + 5 ∧ 2 ≤ p.2 ∧ p.2 ≤ 4) ∧
    List.Chain' (fun a b : ℚ × ℕ => a.1 + 6 ≤ b.1) (chirpLoop rc rg now k next).1 ∧
    (∀ p ∈ (chirpLoop rc rg now k next).1.head?, next ≤ p.1) :=
  chirpLoopSpec_holds rc rg now (⌈now + 5 - next⌉).toNat k next le_rfl

/-- Pointwise description of the master-gain trajectory from the moment
of the second `setMasterVolume` call: the second call's
`cancelScheduledValues` discards the first ramp, so from `t2` the value
interpolates linearly from the value reached at `t2` to the target
derived from `v2` alone and stays there. -/
theorem setMasterVolume_twice_val (f : ℚ → ℚ) (t1 t2 v1 v2 : ℚ) :
    ∀ u, t2 ≤ u →
      setMasterVolumeTraj (setMasterVolumeTraj f t1 v1) t2 v2 u =
        max (1 / 10000) (min v2 (19 / 20)) +
          (setMasterVolumeTraj f t1 v1 t2 - max (1 / 10000) (min v2 (19 / 20))) *
            (if u < t2 + 1 / 10 then 1 - (u - t2) * 10 else 0) := by
  intro u hu
  rcases eq_or_lt_of_le hu with heq | hlt
  · rw [← heq]
    show setMasterVolumeTraj (setMasterVolumeTraj f t1 v1) t2 v2 t2 = _
    rw [if_pos (by norm_num : t2 < t2 + (1 : ℚ) / 10)]
    show rampTraj (setMasterVolumeTraj f t1 v1) t2 (max (1 / 10000) (min v2 (19 / 20))) (1 / 10) t2 = _
    rw [rampTraj, if_pos le_rfl]
    ring
  · show rampTraj (setMasterVolumeTraj f t1 v1) t2 (max (1 / 10000) (min v2 (19 / 20))) (1 / 10) u = _
    rw [rampTraj, if_neg (not_le.mpr hlt)]
    by_cases hu2 : u < t2 + 1 / 10
    · rw [if_pos hu2, if_pos hu2]
      field_simp
      ring
    · rw [if_neg hu2, if_neg hu2]
      ring

/-- C7: issuing `setMasterVolume(v1)` at `t1` and `setMasterVolume(v2)`
at `t2` before the first 100 ms ramp finishes makes the master gain
converge to the `v2`-derived target `max(0.0001, min(v2, 0.95))`: the
value equals that target from `t2 + 0.1` on, its distance to that
target is non-increasing from `t2` on (monotone convergence, no
oscillation back toward the `v1`-derived target), and it never leaves
the interval between the value at `t2` and the `v2`-derived target. -/
theorem master_volume_last_write_wins (f : ℚ → ℚ) (t1 t2 v1 v2 : ℚ)
    (h12 : t1 < t2) (hearly : t2 < t1 + 1 / 10) :
    (∀ u, t2 + 1 / 10 ≤ u →
      setMasterVolumeTraj (setMasterVolumeTraj f t1 v1) t2 v2 u =
        max (1 / 10000) (min v2 (19 / 20))) ∧
    (∀ u u', t2 ≤ u → u ≤ u' →
      |setMasterVolumeTraj (setMasterVolumeTraj f t1 v1) t2 v2 u' -
          max (1 / 10000) (min v2 (19 / 20))| ≤
        |setMasterVolumeTraj (setMasterVolumeTraj f t1 v1) t2 v2 u -
          max (1 / 10000) (min v2 (19 / 20))|) ∧
    (∀ u, t2 ≤ u →
      min (setMasterVolumeTraj f t1 v1 t2) (max (1 / 10000) (min v2 (19 / 20))) ≤
        setMasterVolumeTraj (setMasterVolumeTraj f t1 v1) t2 v2 u ∧
      setMasterVolumeTraj (setMasterVolumeTraj f t1 v1) t2 v2 u ≤
        max (setMasterVolumeTraj f t1 v1 t2) (max (1 / 10000) (min v2 (19 / 20)))) := by
  have hdamp : ∀ u, t2 ≤ u →
      (0 : ℚ) ≤ (if u < t2 + 1 / 10 then 1 - (u - t2) * 10 else 0) ∧
      (if u < t2 + 1 / 10 then 1 - (u - t2) * 10 else 0) ≤ 1 := by
    intro u hu
    by_cases hu2 : u < t2 + 1 / 10
    · rw [if_pos hu2]
      constructor <;> linarith
    · rw [if_neg hu2]
      norm_num
  refine ⟨?_, ?_, ?_⟩
  · intro u hu
    rw [setMasterVolume_twice_val f t1 t2 v1 v2 u (by linarith),
      if_neg (not_lt.mpr hu)]
    ring
  · intro u u' hu huu
    rw [setMasterVolume_twice_val f t1 t2 v1 v2 u hu,
      setMasterVolume_twice_val f t1 t2 v1 v2 u' (le_trans hu huu)]
    have hsimp : ∀ a b d : ℚ, a + (b - a) * d - a = (b - a) * d := by intro a b d; ring
    rw [hsimp, hsimp, abs_mul, abs_mul]
    refine mul_le_mul_of_nonneg_left ?_ (abs_nonneg _)
    have h1 := hdamp u hu
    have h2 := hdamp u' (le_trans hu huu)
    rw [abs_of_nonneg h1.1, abs_of_nonneg h2.1]
    by_cases hu2 : u < t2 + 1 / 10
    · by_cases hu2' : u' < t2 + 1 / 10
      · rw [if_pos hu2, if_pos hu2']
        linarith
      · rw [if_pos hu2, if_neg hu2']
        linarith
    · rw [if_neg hu2, if_neg (show ¬ u' < t2 + 1 / 10 by intro hlt; exact hu2 (lt_of_le_of_lt huu hlt))]
  · intro u hu
    rw [setMasterVolume_twice_val f t1 t2 v1 v2 u hu]
    obtain ⟨hd0, hd1⟩ := hdamp u hu
    rcases le_total (setMasterVolumeTraj f t1 v1 t2) (max (1 / 10000) (min v2 (19 / 20))) with hcg | hcg
    · rw [min_eq_left hcg, max_eq_right hcg]
      constructor <;> nlinarith
    · rw [min_eq_right hcg, max_eq_left hcg]
      constructor <;> nlinarith

/-- Witness for `master_volume_last_write_wins`: second call 50 ms
after the first. -/
theorem master_volume_last_write_wins_witness :
    ((0 : ℚ) < 1 / 20 ∧ (1 / 20 : ℚ) < 0 + 1 / 10) ∧
    (∀ u, (1 / 20 : ℚ) + 1 / 10 ≤ u →
      setMasterVolumeTraj (setMasterVolumeTraj (fun _ => 0) 0 1) (1 / 20) (1 / 2) u =
        max (1 / 10000) (min (1 / 2) (19 / 20))) :=
  ⟨⟨by norm_num, by norm_num⟩,
    (master_volume_last_write_wins (fun _ => 0) 0 (1 / 20) 1 (1 / 2)
      (by norm_num) (by norm_num)).1⟩

/-- The final state of the C1 trace, computed. -/
theorem scene1_eq : scene1 =
    { gens := [
        { cls := .oscLeft, born := 0, freq := 200, freqTarget := 200, chan := 0 },
        { cls := .oscRight, born := 0, freq := 200 + 5, freqTarget := 200 + 5, chan := 1 },
        { cls := .natSource .sea, born := 0, stopTime := some (2 + RAMP_TIME + 1 / 20),
          gainTarget := 0, gainRampEnd := 2 + RAMP_TIME },
        { cls := .natLfo .sea, born := 0, stopTime := some (2 + RAMP_TIME + 1 / 20) },
        { cls := .noiseSrc .pink, born := 0, gainTarget := max (1 / 10000) 1,
          gainRampEnd := 0 + RAMP_TIME }],
      leftOsc := some 0, rightOsc := some 1,
      natureNodes := [],
      colorNoiseNode := some 4, colorNoiseGainRef := some 4,
      pending := [], masterTarget := max (1 / 10000) (3 / 5), masterRampEnd := 0 + 1 } := rfl

/-- C1 (code bug): adding an already-active kind and removing an
inactive kind are indeed no-ops, but the final audible state does *not*
always match the last `updateNatures` call: in the `scene1` trace the
last call (t=2.1) includes `SEA`, yet the re-add was skipped because
the fading entry still occupied the registry, and the pending teardown
(t=2.15) then stopped the generators and deleted the entry — `SEA` ends
absent and inaudible. -/
theorem updateNatures_readd_during_teardown_lost :
    (updateNaturesOp 1 [.sea] sPlay = sPlay) ∧
    (updateNaturesOp 3 [] scene1 = scene1) ∧
    (hasKind .sea scene1.natureNodes = false) ∧
    (∀ g ∈ scene1.gens, g.cls = .natSource .sea →
      g.stopTime = some (2 + RAMP_TIME + 1 / 20)) ∧
    scene1.pending = [] := by
  refine ⟨rfl, rfl, rfl, ?_, rfl⟩
  intro g hg hcls
  rw [scene1_eq] at hg
  simp only [List.mem_cons, List.not_mem_nil, or_false] at hg
  rcases hg with rfl | rfl | rfl | rfl | rfl <;> simp_all

/-! ### C2: stop() releases generators only after the master fade -/

/-- Final state of `stop()` at time `t` on the sea+pink session: the
oscillators and the noise source are stopped at `t + 0.6` by the 600 ms
cleanup, the sea source and LFO at `t + 0.75` by the nature fade-out
teardown. -/
theorem run_stop_sPlay (t : ℚ) : run 3 (stopOp t sPlay) =
    { gens := [
        { cls := .oscLeft, born := 0, freq := 200, freqTarget := 200, chan := 0,
          stopTime := some (t + 3 / 5) },
        { cls := .oscRight, born := 0, freq := 200 + 5, freqTarget := 200 + 5, chan := 1,
          stopTime := some (t + 3 / 5) },
        { cls := .natSource .sea, born := 0, stopTime := some (t + 3 / 5 + RAMP_TIME + 1 / 20),
          gainTarget := 0, gainRampEnd := t + 3 / 5 + RAMP_TIME },
        { cls := .natLfo .sea, born := 0, stopTime := some (t + 3 / 5 + RAMP_TIME + 1 / 20) },
        { cls := .noiseSrc .pink, born := 0, stopTime := some (t + 3 / 5),
          gainTarget := max (1 / 10000) 1, gainRampEnd := 0 + RAMP_TIME }],
      leftOsc := none, rightOsc := none, natureNodes := [],
      colorNoiseNode := none, colorNoiseGainRef := some 4,
      pending := [], masterTarget := 0, masterRampEnd := t + 1 / 2 } := rfl

/-- Final state of `stop()` at time `t` on the birds+pink session. -/
theorem run_stop_sPlayB (t : ℚ) : run 3 (stopOp t sPlayB) =
    { gens := [
        { cls := .oscLeft, born := 0, freq := 200, freqTarget := 200, chan := 0,
          stopTime := some (t + 3 / 5) },
        { cls := .oscRight, born := 0, freq := 200 + 5, freqTarget := 200 + 5, chan := 1,
          stopTime := some (t + 3 / 5) },
        { cls := .natBreeze .birds, born := 0, stopTime := some (t + 3 / 5 + RAMP_TIME + 1 / 20),
          gainTarget := 0, gainRampEnd := t + 3 / 5 + RAMP_TIME },
        { cls := .noiseSrc .pink, born := 0, stopTime := some (t + 3 / 5),
          gainTarget := max (1 / 10000) 1, gainRampEnd := 0 + RAMP_TIME }],
      leftOsc := none, rightOsc := none, natureNodes := [],
      colorNoiseNode := none, colorNoiseGainRef := some 3,
      pending := [], masterTarget := 0, masterRampEnd := t + 1 / 2 } := rfl

/-- C2: `stop()` at time `t` ramps the master gain to exact zero ending
at `t + 0.5` and stops no generator synchronously; every per-layer
generator — both binaural oscillators, each nature layer's source and
LFO (and the birds breeze source), and the colored-noise source — is
stopped strictly after `t + 0.5`, i.e. only after the master ramp has
completed (oscillators and noise at `t + 0.6`, nature generators at
`t + 0.75`). -/
theorem stop_releases_only_after_master_ramp (t : ℚ) :
    ((stopOp t sPlay).masterTarget = 0 ∧ (stopOp t sPlay).masterRampEnd = t + 1 / 2 ∧
      (stopOp t sPlay).gens = sPlay.gens ∧
      (∀ g ∈ (run 3 (stopOp t sPlay)).gens, ∃ e, g.stopTime = some e ∧ t + 1 / 2 < e) ∧
      (run 3 (stopOp t sPlay)).pending = []) ∧
    ((stopOp t sPlayB).masterTarget = 0 ∧ (stopOp t sPlayB).masterRampEnd = t + 1 / 2 ∧
      (stopOp t sPlayB).gens = sPlayB.gens ∧
      (∀ g ∈ (run 3 (stopOp t sPlayB)).gens, ∃ e, g.stopTime = some e ∧ t + 1 / 2 < e) ∧
      (run 3 (stopOp t sPlayB)).pending = []) := by
  have hR : RAMP_TIME = 1 / 10 := rfl
  constructor
  · refine ⟨rfl, rfl, rfl, ?_, by rw [run_stop_sPlay]⟩
    intro g hg
    rw [run_stop_sPlay] at hg
    simp only [List.mem_cons, List.not_mem_nil, or_false] at hg
    rcases hg with rfl | rfl | rfl | rfl | rfl
    · exact ⟨t + 3 / 5, rfl, by linarith⟩
    · exact ⟨t + 3 / 5, rfl, by linarith⟩
    · exact ⟨t + 3 / 5 + RAMP_TIME + 1 / 20, rfl, by rw [hR]; linarith⟩
    · exact ⟨t + 3 / 5 + RAMP_TIME + 1 / 20, rfl, by rw [hR]; linarith⟩
    · exact ⟨t + 3 / 5, rfl, by linarith⟩
  · refine ⟨rfl, rfl, rfl, ?_, by rw [run_stop_sPlayB]⟩
    intro g hg
    rw [run_stop_sPlayB] at hg
    simp only [List.mem_cons, List.not_mem_nil, or_false] at hg
    rcases hg with rfl | rfl | rfl | rfl
    · exact ⟨t + 3 / 5, rfl, by linarith⟩
    · exact ⟨t + 3 / 5, rfl, by linarith⟩
    · exact ⟨t + 3 / 5 + RAMP_TIME + 1 / 20, rfl, by rw [hR]; linarith⟩
    · exact ⟨t + 3 / 5, rfl, by linarith⟩

/-! ### C5: updateNoise replaces the colored-noise generator with a
deliberate overlap -/

/-- State immediately after `updateNoise(BROWN)` at time `t` on the
pink-playing session: the old generator's gain is ramped toward
near-silence ending `t + 0.1`, its stop is scheduled for `t + 0.2`, and
the new generator is already created and started at silent gain and
ramped toward unity. -/
theorem updateNoise_sPlay_eq (t : ℚ) : updateNoiseOp t .brown sPlay =
    { gens := [
        { cls := .oscLeft, born := 0, freq := 200, freqTarget := 200, chan := 0 },
        { cls := .oscRight, born := 0, freq := 200 + 5, freqTarget := 200 + 5, chan := 1 },
        { cls := .natSource .sea, born := 0, gainTarget := max (1 / 10000) 1,
          gainRampEnd := 0 + RAMP_TIME },
        { cls := .natLfo .sea, born := 0 },
        { cls := .noiseSrc .pink, born := 0, gainTarget := max (1 / 10000) 0,
          gainRampEnd := t + RAMP_TIME },
        { cls := .noiseSrc .brown, born := t, gainTarget := max (1 / 10000) 1,
          gainRampEnd := t + RAMP_TIME }],
      leftOsc := some 0, rightOsc := some 1,
      natureNodes := [(.sea, { source := some 2, lfo := some 3 })],
      colorNoiseNode := some 5, colorNoiseGainRef := some 5,
      pending := [Timer.noiseStop (some 4) (t + 1 / 5)],
      masterTarget := max (1 / 10000) (3 / 5), masterRampEnd := 0 + 1 } := rfl

/-- Final state once the scheduled old-generator stop has fired. -/
theorem run_updateNoise_sPlay (t : ℚ) : run 2 (updateNoiseOp t .brown sPlay) =
    { gens := [
        { cls := .oscLeft, born := 0, freq := 200, freqTarget := 200, chan := 0 },
        { cls := .oscRight, born := 0, freq := 200 + 5, freqTarget := 200 + 5, chan := 1 },
        { cls := .natSource .sea, born := 0, gainTarget := max (1 / 10000) 1,
          gainRampEnd := 0 + RAMP_TIME },
        { cls := .natLfo .sea, born := 0 },
        { cls := .noiseSrc .pink, born := 0, stopTime := some (t + 1 / 5),
          gainTarget := max (1 / 10000) 0, gainRampEnd := t + RAMP_TIME },
        { cls := .noiseSrc .brown, born := t, gainTarget := max (1 / 10000) 1,
          gainRampEnd := t + RAMP_TIME }],
      leftOsc := some 0, rightOsc := some 1,
      natureNodes := [(.sea, { source := some 2, lfo := some 3 })],
      colorNoiseNode := some 5, colorNoiseGainRef := some 5,
      pending := [],
      masterTarget := max (1 / 10000) (3 / 5), masterRampEnd := 0 + 1 } := rfl

/-- C5: replacing the active pink noise with brown at time `t`: the old
generator's gain is ramped toward near-silence (target 0.0001, ramp end
`t + 0.1`) and the old generator is not stopped synchronously; the new
generator is created and started at time `t` — before the old one is
stopped at `t + 0.2`, so at every instant `u ≥ 0` at least one of the
two noise generators exists; the old generator is stopped only at
`t + 0.2`, after its fade-out ramp end `t + 0.1` has passed; and the
new generator's gain is ramped up to unity. -/
theorem updateNoise_switch_ordering (t : ℚ) :
    ((updateNoiseOp t .brown sPlay).gens.get? 4).map (fun g => (g.gainTarget, g.gainRampEnd, g.stopTime)) =
      some (max (1 / 10000) 0, t + RAMP_TIME, none) ∧
    ((updateNoiseOp t .brown sPlay).gens.get? 5).map (fun g => (g.cls, g.born, g.gainTarget, g.stopTime)) =
      some (.noiseSrc .brown, t, max (1 / 10000) 1, none) ∧
    (updateNoiseOp t .brown sPlay).pending = [Timer.noiseStop (some 4) (t + 1 / 5)] ∧
    ((run 2 (updateNoiseOp t .brown sPlay)).gens.get? 4).map Gen.stopTime = some (some (t + 1 / 5)) ∧
    ((run 2 (updateNoiseOp t .brown sPlay)).gens.get? 5).map Gen.stopTime = some none ∧
    (t + RAMP_TIME < t + 1 / 5 ∧ t < t + 1 / 5) ∧
    (∀ u, 0 ≤ u → ∀ gOld ∈ (run 2 (updateNoiseOp t .brown sPlay)).gens.get? 4,
      ∀ gNew ∈ (run 2 (updateNoiseOp t .brown sPlay)).gens.get? 5,
      gOld.aliveAt u ∨ gNew.aliveAt u) := by
  have hR : RAMP_TIME = 1 / 10 := rfl
  refine ⟨by rw [updateNoise_sPlay_eq]; rfl, by rw [updateNoise_sPlay_eq]; rfl,
    by rw [updateNoise_sPlay_eq], by rw [run_updateNoise_sPlay]; rfl,
    by rw [run_updateNoise_sPlay]; rfl, ⟨by rw [hR]; linarith, by linarith⟩, ?_⟩
  intro u hu gOld hOld gNew hNew
  rw [run_updateNoise_sPlay] at hOld hNew
  simp only [List.get?, Option.mem_def, Option.some.injEq] at hOld hNew
  subst hOld
  subst hNew
  rcases lt_or_le u (t + 1 / 5) with hcase | hcase
  · left
    exact ⟨hu, fun e he => by simp only [Option.some.injEq] at he; rw [← he]; exact hcase⟩
  · right
    refine ⟨by linarith, fun e he => by simp at he⟩

/-- Witness for `updateNatures_readd_during_teardown_lost`: the sea
source generator of the C1 trace is indeed stopped. -/
theorem updateNatures_readd_witness :
    Gen.stopTime ({ cls := .natSource .sea, born := 0,
                    stopTime := some (2 + RAMP_TIME + 1 / 20),
                    gainTarget := 0, gainRampEnd := 2 + RAMP_TIME } : Gen) =
      some (2 + RAMP_TIME + 1 / 20) :=
  updateNatures_readd_during_teardown_lost.2.2.2.1 _
    (by rw [scene1_eq]; exact List.mem_cons_of_mem _ (List.mem_cons_of_mem _ (List.mem_cons_self _ _)))
    rfl

/-- Witness for `stop_releases_only_after_master_ramp` at `t = 1`, on
the left oscillator. -/
theorem stop_releases_witness :
    ∃ e, Gen.stopTime ({ cls := .oscLeft, born := 0, freq := 200, freqTarget := 200,
                         chan := 0, stopTime := some ((1 : ℚ) + 3 / 5) } : Gen) = some e ∧
      (1 : ℚ) + 1 / 2 < e :=
  (stop_releases_only_after_master_ramp 1).1.2.2.2.1 _
    (by rw [run_stop_sPlay]; exact List.mem_cons_self _ _)

/-- Witness for `updateNoise_switch_ordering` at `t = 1`, `u = 0`. -/
theorem updateNoise_switch_witness :
    Gen.aliveAt ({ cls := .noiseSrc .pink, born := 0, stopTime := some ((1 : ℚ) + 1 / 5),
                   gainTarget := max (1 / 10000) 0, gainRampEnd := 1 + RAMP_TIME } : Gen) 0 ∨
    Gen.aliveAt ({ cls := .noiseSrc .brown, born := (1 : ℚ),
                   gainTarget := max (1 / 10000) 1, gainRampEnd := 1 + RAMP_TIME } : Gen) 0 :=
  (updateNoise_switch_ordering 1).2.2.2.2.2.2 0 le_rfl _
    (by rw [run_updateNoise_sPlay]; rfl) _ (by rw [run_updateNoise_sPlay]; rfl)

/-- Witness for `chirp_lookahead_horizon` with constant draws, the
window starting at 0 and `nextBirdTime = 1`. -/
theorem chirp_lookahead_witness :
    (0 : ℚ) + 5 ≤ (chirpLoop (fun _ => ⟨0, by norm_num⟩) (fun _ => ⟨0, by norm_num⟩) 0 0 1).2 :=
  (chirp_lookahead_horizon (fun _ => ⟨0, by norm_num⟩) (fun _ => ⟨0, by norm_num⟩) 0 0 1).1

theorem sigExt_refl (s : Svc) : SigExt s s := ⟨le_rfl, fun _ _ => rfl⟩

theorem sigExt_trans {s1 s2 s3 : Svc} (h12 : SigExt s1 s2) (h23 : SigExt s2 s3) :
    SigExt s1 s3 :=
  ⟨le_trans h12.1 h23.1, fun j hj => (h23.2 j (lt_of_lt_of_le hj h12.1)).trans (h12.2 j hj)⟩

theorem modifyAt_length (l : List Gen) (i : ℕ) (f : Gen → Gen) :
    (modifyAt l i f).length = l.length := by
  induction l generalizing i with
  | nil => rfl
  | cons g gs ih => cases i with
    | zero => rfl
    | succ n => simp [modifyAt, ih]

theorem modifyAt_get? (l : List Gen) (i : ℕ) (f : Gen → Gen) (j : ℕ) :
    (modifyAt l i f).get? j = if j = i then (l.get? i).map f else l.get? j := by
  induction l generalizing i j with
  | nil => simp [modifyAt]
  | cons g gs ih =>
    cases i with
    | zero => cases j with
      | zero => simp [modifyAt]
      | succ m => simp [modifyAt]
    | succ n => cases j with
      | zero => simp [modifyAt]
      | succ m => simpa [modifyAt, Nat.succ_eq_add_one] using ih n m

theorem sigExt_modifyGen (s : Svc) (i : ℕ) (f : Gen → Gen)
    (hf : ∀ g, Gen.sig (f g) = Gen.sig g) : SigExt s (modifyGen s i f) := by
  refine ⟨by simp [modifyGen, modifyAt_length], fun j hj => ?_⟩
  show ((modifyAt s.gens i f).get? j).map Gen.sig = _
  rw [modifyAt_get?]
  by_cases hji : j = i
  · subst hji
    rw [if_pos rfl, Option.map_map]
    cases s.gens.get? j with
    | none => rfl
    | some g => simp [Function.comp, hf]
  · rw [if_neg hji]

theorem sig_stopGen (τ : ℚ) (g : Gen) :
    Gen.sig (match g.stopTime with
      | some _ => g
      | none => { g with stopTime := some τ }) = Gen.sig g := by
  cases g.stopTime <;> rfl

theorem sigExt_stopGenAt (τ : ℚ) (i : ℕ) (s : Svc) : SigExt s (stopGenAt τ i s) :=
  sigExt_modifyGen s i _ (sig_stopGen τ)

theorem sigExt_stopOptGen (τ : ℚ) (o : Option ℕ) (s : Svc) : SigExt s (stopOptGen τ o s) := by
  cases o with
  | none => exact sigExt_refl s
  | some i => exact sigExt_stopGenAt τ i s

theorem sigExt_smoothGainOn (τ v dur : ℚ) (i : ℕ) (s : Svc) : SigExt s (smoothGainOn τ v dur i s) :=
  sigExt_modifyGen s i _ (fun _ => rfl)

theorem sigExt_rampGainZero (τ : ℚ) (o : Option ℕ) (s : Svc) : SigExt s (rampGainZero τ o s) := by
  cases o with
  | none => exact sigExt_refl s
  | some i => exact sigExt_modifyGen s i _ (fun _ => rfl)

theorem sigExt_of_gens_eq {s s' : Svc} (h : s'.gens = s.gens) : SigExt s s' := by
  refine ⟨by rw [h], fun j _ => by rw [h]⟩

theorem sigExt_pushGen (s : Svc) (g : Gen) : SigExt s (pushGen s g) := by
  refine ⟨by simp [pushGen], fun j hj => ?_⟩
  show ((s.gens ++ [g]).get? j).map Gen.sig = _
  rw [List.get?_append hj]

theorem sigExt_setPending (s : Svc) (p : List Timer) : SigExt s { s with pending := p } :=
  ⟨le_rfl, fun _ _ => rfl⟩

theorem sigExt_clearOscRefs (s : Svc) :
    SigExt s { s with leftOsc := none, rightOsc := none } :=
  ⟨le_rfl, fun _ _ => rfl⟩

theorem sigExt_setNatureReg (s : Svc) (l : List (NatureSound × NatureNode)) :
    SigExt s { s with natureNodes := l } :=
  ⟨le_rfl, fun _ _ => rfl⟩

theorem sigExt_setColorRefs (s : Svc) (a b : Option ℕ) :
    SigExt s { s with colorNoiseNode := a, colorNoiseGainRef := b } :=
  ⟨le_rfl, fun _ _ => rfl⟩

theorem sigExt_setColorNone (τ : ℚ) (i : ℕ) (s : Svc) :
    SigExt s { stopGenAt τ i s with colorNoiseNode := none } :=
  sigExt_trans (sigExt_stopGenAt τ i s) ⟨le_rfl, fun _ _ => rfl⟩

theorem sigExt_fadeOutNatureNode (τ : ℚ) (n : NatureNode) (k : NatureSound) (s : Svc) :
    SigExt s (fadeOutNatureNode τ n k s) := by
  rw [fadeOutNatureNode]
  refine sigExt_trans ?_ (sigExt_setPending _ _)
  refine sigExt_trans ?_ (sigExt_rampGainZero τ n.breeze _)
  exact sigExt_rampGainZero τ n.source s

theorem sigExt_foldl {β : Type} (f : Svc → β → Svc)
    (hf : ∀ st b, SigExt st (f st b)) (l : List β) :
    ∀ st : Svc, SigExt st (List.foldl f st l) := by
  induction l with
  | nil => exact fun st => sigExt_refl st
  | cons b bs ih => exact fun st => sigExt_trans (hf st b) (ih (f st b))

theorem sigExt_startBirds (τ : ℚ) (s : Svc) : SigExt s (startBirdsSoundscape τ s) := by
  rw [startBirdsSoundscape]
  refine sigExt_trans ?_ (sigExt_setNatureReg _ _)
  refine sigExt_trans ?_ (sigExt_smoothGainOn _ _ _ _ _)
  exact sigExt_pushGen s _

theorem sigExt_startNature (τ : ℚ) (k : NatureSound) (s : Svc) : SigExt s (startNature τ k s) := by
  rw [startNature]
  by_cases h0 : k = .noneN
  · rw [if_pos h0]; exact sigExt_refl s
  rw [if_neg h0]
  by_cases hb : k = .birds
  · rw [if_pos hb]; exact sigExt_startBirds τ s
  rw [if_neg hb]
  refine sigExt_trans ?_ (sigExt_setNatureReg _ _)
  refine sigExt_trans ?_ (sigExt_smoothGainOn _ _ _ _ _)
  by_cases hl : natureHasLfo k
  · rw [if_pos hl]
    exact sigExt_trans (sigExt_pushGen s _) (sigExt_pushGen _ _)
  · rw [if_neg hl]
    exact sigExt_pushGen s _

theorem sigExt_cleanupNodes (τ : ℚ) (s : Svc) : SigExt s (cleanupNodes τ s) := by
  rw [cleanupNodes]
  split
  case h_1 i heq =>
    refine sigExt_trans ?_ (sigExt_setColorNone τ i _)
    refine sigExt_trans ?_ (sigExt_foldl _ (fun st (p : NatureSound × NatureNode) => sigExt_fadeOutNatureNode τ p.2 p.1 st) _ _)
    refine sigExt_trans ?_ (sigExt_clearOscRefs _)
    refine sigExt_trans ?_ (sigExt_stopOptGen τ _ _)
    exact sigExt_stopOptGen τ s.leftOsc s
  case h_2 heq =>
    refine sigExt_trans ?_ (sigExt_foldl _ (fun st (p : NatureSound × NatureNode) => sigExt_fadeOutNatureNode τ p.2 p.1 st) _ _)
    refine sigExt_trans ?_ (sigExt_clearOscRefs _)
    refine sigExt_trans ?_ (sigExt_stopOptGen τ _ _)
    exact sigExt_stopOptGen τ s.leftOsc s

theorem sigExt_updateNatures (τ : ℚ) (sel : List NatureSound) (s : Svc) :
    SigExt s (updateNaturesOp τ sel s) := by
  rw [updateNaturesOp]
  refine sigExt_trans (sigExt_foldl _ (fun st p => ?_) _ _) (sigExt_foldl _ (fun st n => ?_) _ _)
  · by_cases h : sel.contains p.1
    · rw [if_pos h]; exact sigExt_refl st
    · rw [if_neg h]; exact sigExt_fadeOutNatureNode τ p.2 p.1 st
  · by_cases h : hasKind n st.natureNodes
    · rw [if_pos h]; exact sigExt_refl st
    · rw [if_neg h]; exact sigExt_startNature τ n st

theorem sigExt_updateNoise (τ : ℚ) (c : NoiseColor) (s : Svc) :
    SigExt s (updateNoiseOp τ c s) := by
  rw [updateNoiseOp]
  have h1 : ∀ s0 : Svc, SigExt s0 (match s0.colorNoiseGainRef with
      | some gi =>
        { smoothGainOn τ 0 RAMP_TIME gi s0 with
          pending := (smoothGainOn τ 0 RAMP_TIME gi s0).pending ++
            [Timer.noiseStop (smoothGainOn τ 0 RAMP_TIME gi s0).colorNoiseNode (τ + 1 / 5)] }
      | none => s0) := by
    intro s0
    split
    case h_1 gi heq =>
      refine sigExt_trans ?_ (sigExt_setPending _ _)
      exact sigExt_smoothGainOn τ 0 RAMP_TIME gi s0
    case h_2 heq => exact sigExt_refl s0
  by_cases hc : c = .noneC
  · rw [if_pos hc]; exact h1 s
  · rw [if_neg hc]
    refine sigExt_trans (h1 s) ?_
    refine sigExt_trans ?_ (sigExt_setColorRefs _ _ _)
    refine sigExt_trans ?_ (sigExt_smoothGainOn _ _ _ _ _)
    exact sigExt_pushGen _ _

theorem proj_foldl {α β : Type} (f : Svc → β → Svc) (P : Svc → α)
    (h : ∀ st b, P (f st b) = P st) (l : List β) : ∀ st, P (List.foldl f st l) = P st := by
  induction l with
  | nil => intro st; rfl
  | cons b bs ih => intro st; rw [List.foldl_cons, ih, h]

theorem rampGainZero_leftOsc (τ : ℚ) (o : Option ℕ) (s : Svc) :
    (rampGainZero τ o s).leftOsc = s.leftOsc := by cases o <;> rfl

theorem rampGainZero_rightOsc (τ : ℚ) (o : Option ℕ) (s : Svc) :
    (rampGainZero τ o s).rightOsc = s.rightOsc := by cases o <;> rfl

theorem fadeOut_leftOsc (τ : ℚ) (n : NatureNode) (k : NatureSound) (s : Svc) :
    (fadeOutNatureNode τ n k s).leftOsc = s.leftOsc := by
  rw [fadeOutNatureNode]
  show (rampGainZero τ n.breeze (rampGainZero τ n.source s)).leftOsc = s.leftOsc
  rw [rampGainZero_leftOsc, rampGainZero_leftOsc]

theorem fadeOut_rightOsc (τ : ℚ) (n : NatureNode) (k : NatureSound) (s : Svc) :
    (fadeOutNatureNode τ n k s).rightOsc = s.rightOsc := by
  rw [fadeOutNatureNode]
  show (rampGainZero τ n.breeze (rampGainZero τ n.source s)).rightOsc = s.rightOsc
  rw [rampGainZero_rightOsc, rampGainZero_rightOsc]

theorem startNature_leftOsc (τ : ℚ) (k : NatureSound) (s : Svc) :
    (startNature τ k s).leftOsc = s.leftOsc := by cases k <;> rfl

theorem startNature_rightOsc (τ : ℚ) (k : NatureSound) (s : Svc) :
    (startNature τ k s).rightOsc = s.rightOsc := by cases k <;> rfl

theorem updateNatures_leftOsc (τ : ℚ) (sel : List NatureSound) (s : Svc) :
    (updateNaturesOp τ sel s).leftOsc = s.leftOsc := by
  rw [updateNaturesOp]
  rw [proj_foldl _ (fun st => st.leftOsc)
    (fun st n => by
      by_cases h : hasKind n st.natureNodes
      · simp only [h, if_true]
      · simp only [h, if_false]; exact startNature_leftOsc τ n st)]
  rw [proj_foldl _ (fun st => st.leftOsc)
    (fun st (p : NatureSound × NatureNode) => by
      by_cases h : sel.contains p.1
      · simp only [h, if_true]
      · simp only [h, if_false]; exact fadeOut_leftOsc τ p.2 p.1 st)]

theorem updateNatures_rightOsc (τ : ℚ) (sel : List NatureSound) (s : Svc) :
    (updateNaturesOp τ sel s).rightOsc = s.rightOsc := by
  rw [updateNaturesOp]
  rw [proj_foldl _ (fun st => st.rightOsc)
    (fun st n => by
      by_cases h : hasKind n st.natureNodes
      · simp only [h, if_true]
      · simp only [h, if_false]; exact startNature_rightOsc τ n st)]
  rw [proj_foldl _ (fun st => st.rightOsc)
    (fun st (p : NatureSound × NatureNode) => by
      by_cases h : sel.contains p.1
      · simp only [h, if_true]
      · simp only [h, if_false]; exact fadeOut_rightOsc τ p.2 p.1 st)]

theorem updateNoise_leftOsc (τ : ℚ) (c : NoiseColor) (s : Svc) :
    (updateNoiseOp τ c s).leftOsc = s.leftOsc := by
  rw [updateNoiseOp]
  split <;> split <;> rfl

theorem updateNoise_rightOsc (τ : ℚ) (c : NoiseColor) (s : Svc) :
    (updateNoiseOp τ c s).rightOsc = s.rightOsc := by
  rw [updateNoiseOp]
  split <;> split <;> rfl

theorem stopOptGen_length (τ : ℚ) (o : Option ℕ) (s : Svc) :
    (stopOptGen τ o s).gens.length = s.gens.length := by
  cases o with
  | none => rfl
  | some i => exact modifyAt_length s.gens i _

theorem rampGainZero_length (τ : ℚ) (o : Option ℕ) (s : Svc) :
    (rampGainZero τ o s).gens.length = s.gens.length := by
  cases o with
  | none => rfl
  | some i => exact modifyAt_length s.gens i _

theorem fadeOut_length (τ : ℚ) (n : NatureNode) (k : NatureSound) (s : Svc) :
    (fadeOutNatureNode τ n k s).gens.length = s.gens.length := by
  rw [fadeOutNatureNode]
  show (rampGainZero τ n.breeze (rampGainZero τ n.source s)).gens.length = s.gens.length
  rw [rampGainZero_length, rampGainZero_length]

/-- `cleanupNodes` creates no generator: it only records stop times and
fades, so the generator list keeps its length. -/
theorem cleanupNodes_length (τ : ℚ) (s : Svc) :
    (cleanupNodes τ s).gens.length = s.gens.length := by
  rw [cleanupNodes]
  split
  case h_1 i heq =>
    show (modifyAt _ i _).length = _
    rw [modifyAt_length]
    rw [proj_foldl _ (fun st => st.gens.length)
      (fun st (p : NatureSound × NatureNode) => fadeOut_length τ p.2 p.1 st)]
    show (stopOptGen τ _ (stopOptGen τ s.leftOsc s)).gens.length = _
    rw [stopOptGen_length, stopOptGen_length]
  case h_2 heq =>
    rw [proj_foldl _ (fun st => st.gens.length)
      (fun st (p : NatureSound × NatureNode) => fadeOut_length τ p.2 p.1 st)]
    show (stopOptGen τ _ (stopOptGen τ s.leftOsc s)).gens.length = _
    rw [stopOptGen_length, stopOptGen_length]

/-- C9: `start` creates exactly one left and one right oscillator: the
left at the 200 Hz base frequency on merger output channel 0, the right
at `200 + freq` on channel 1 (distinct channels — the pair is never
summed to mono), both default sine; and `updateFrequency(hz)` retargets
only the right oscillator, toward `200 + hz`, leaving every other
generator untouched. -/
theorem binaural_pair_structure (τ freq vol : ℚ) (natures : List NatureSound)
    (noise : NoiseColor) (s : Svc) :
    (startOp τ natures noise freq vol s).leftOsc = some s.gens.length ∧
    (startOp τ natures noise freq vol s).rightOsc = some (s.gens.length + 1) ∧
    ((startOp τ natures noise freq vol s).gens.get? s.gens.length).map Gen.sig =
      some (.oscLeft, τ, 200, 200, 0, .sine) ∧
    ((startOp τ natures noise freq vol s).gens.get? (s.gens.length + 1)).map Gen.sig =
      some (.oscRight, τ, 200 + freq, 200 + freq, 1, .sine) ∧
    ∀ f',
      ((updateFrequencyOp f' (startOp τ natures noise freq vol s)).gens.get?
          (s.gens.length + 1)).map Gen.sig =
        some (.oscRight, τ, 200 + freq, 200 + f', 1, .sine) ∧
      ∀ j, j ≠ s.gens.length + 1 →
        (updateFrequencyOp f' (startOp τ natures noise freq vol s)).gens.get? j =
          (startOp τ natures noise freq vol s).gens.get? j := by
  have hlen : (cleanupNodes τ s).gens.length = s.gens.length := cleanupNodes_length τ s
  set s1 := cleanupNodes τ s with hs1
  set gL : Gen := { cls := .oscLeft, born := τ, freq := 200, freqTarget := 200, chan := 0 }
    with hgL
  set gR : Gen := { cls := .oscRight, born := τ, freq := 200 + freq,
                    freqTarget := 200 + freq, chan := 1 } with hgR
  set s4 : Svc := { pushGen (pushGen s1 gL) gR with
                    leftOsc := some s1.gens.length,
                    rightOsc := some (s1.gens.length + 1) } with hs4
  have hstart : startOp τ natures noise freq vol s =
      { updateNoiseOp τ noise (updateNaturesOp τ natures s4) with
        masterTarget := max (1 / 10000) vol, masterRampEnd := τ + 1 } := rfl
  have hext : SigExt s4 (updateNoiseOp τ noise (updateNaturesOp τ natures s4)) :=
    sigExt_trans (sigExt_updateNatures τ natures s4) (sigExt_updateNoise τ noise _)
  have hlen4 : s4.gens.length = s1.gens.length + 2 := by
    simp [hs4, pushGen]
  have hget4L : s4.gens.get? s1.gens.length = some gL := by
    show ((s1.gens ++ [gL]) ++ [gR]).get? s1.gens.length = some gL
    rw [List.get?_append (by simp), List.get?_concat_length]
  have hget4R : s4.gens.get? (s1.gens.length + 1) = some gR := by
    show ((s1.gens ++ [gL]) ++ [gR]).get? (s1.gens.length + 1) = some gR
    have : (s1.gens ++ [gL]).length = s1.gens.length + 1 := by simp
    rw [← this, List.get?_concat_length]
  have hLosc : (startOp τ natures noise freq vol s).leftOsc = some s1.gens.length := by
    rw [hstart]
    show (updateNoiseOp τ noise (updateNaturesOp τ natures s4)).leftOsc = _
    rw [updateNoise_leftOsc, updateNatures_leftOsc]
  have hRosc : (startOp τ natures noise freq vol s).rightOsc = some (s1.gens.length + 1) := by
    rw [hstart]
    show (updateNoiseOp τ noise (updateNaturesOp τ natures s4)).rightOsc = _
    rw [updateNoise_rightOsc, updateNatures_rightOsc]
  have hsigL : ((startOp τ natures noise freq vol s).gens.get? s1.gens.length).map Gen.sig =
      some gL.sig := by
    rw [hstart]
    show ((updateNoiseOp τ noise (updateNaturesOp τ natures s4)).gens.get?
      s1.gens.length).map Gen.sig = _
    rw [hext.2 s1.gens.length (by omega), hget4L]
    rfl
  have hsigR : ((startOp τ natures noise freq vol s).gens.get? (s1.gens.length + 1)).map Gen.sig =
      some gR.sig := by
    rw [hstart]
    show ((updateNoiseOp τ noise (updateNaturesOp τ natures s4)).gens.get?
      (s1.gens.length + 1)).map Gen.sig = _
    rw [hext.2 (s1.gens.length + 1) (by omega), hget4R]
    rfl
  rw [hlen] at hLosc hRosc hsigL hsigR
  refine ⟨hLosc, hRosc, hsigL, hsigR, ?_⟩
  intro f'
  have hupd : updateFrequencyOp f' (startOp τ natures noise freq vol s) =
      modifyGen (startOp τ natures noise freq vol s) (s.gens.length + 1)
        (fun g => { g with freqTarget := 200 + f' }) := by
    rw [updateFrequencyOp, hRosc]
  constructor
  · rw [hupd]
    show ((modifyAt _ _ _).get? _).map Gen.sig = _
    rw [modifyAt_get?, if_pos rfl]
    obtain ⟨g, hg, hgsig⟩ : ∃ g, (startOp τ natures noise freq vol s).gens.get?
        (s.gens.length + 1) = some g ∧ Gen.sig g = gR.sig := by
      cases hq : (startOp τ natures noise freq vol s).gens.get? (s.gens.length + 1) with
      | none => rw [hq] at hsigR; simp at hsigR
      | some g =>
        rw [hq] at hsigR
        simp only [Option.map_some'] at hsigR
        exact ⟨g, rfl, by injection hsigR⟩
    rw [hg]
    simp only [Option.map_some', Option.map_map]
    have h6 := hgsig
    rw [hgR] at h6
    simp only [Gen.sig, Prod.mk.injEq] at h6
    obtain ⟨e1, e2, e3, _, e5, e6⟩ := h6
    show some (Gen.sig { g with freqTarget := 200 + f' }) = _
    simp only [Gen.sig, Option.some.injEq, Prod.mk.injEq]
    exact ⟨e1, e2, e3, trivial, e5, e6⟩
  · intro j hj
    rw [hupd]
    show (modifyAt _ _ _).get? _ = _
    rw [modifyAt_get?, if_neg hj]

/-- Witness for `binaural_pair_structure`: a first start on a fresh
engine, then `updateFrequency(7)`, leaves generator 0 (the left
oscillator) untouched. -/
theorem binaural_pair_witness :
    (updateFrequencyOp 7 (startOp 0 [] .noneC 5 (3 / 5) initSvc)).gens.get? 0 =
      (startOp 0 [] .noneC 5 (3 / 5) initSvc).gens.get? 0 :=
  ((binaural_pair_structure 0 5 (3 / 5) [] .noneC initSvc).2.2.2.2 7).2 0 (by decide)

theorem run_succ_pop (n : ℕ) (s : Svc) (tm : Timer) (rest P : List Timer)
    (hP : s.pending = P) (h : popEarliest P = some (tm, rest)) :
    run (n + 1) s = run n (fireTimer { s with pending := rest } tm) := by
  have hrun : run (n + 1) s = match popEarliest s.pending with
      | none => s
      | some (tm, rest) => run n (fireTimer { s with pending := rest } tm) := rfl
  rw [hrun, hP, h]

theorem popEarliest_cons_le (a m : Timer) (ts rest : List Timer)
    (hpop : popEarliest ts = some (m, rest)) (hle : a.due ≤ m.due) :
    popEarliest (a :: ts) = some (a, ts) := by
  have hdef : popEarliest (a :: ts) = match popEarliest ts with
      | none => some (a, [])
      | some (m, rest) => if a.due ≤ m.due then some (a, ts) else some (m, a :: rest) := rfl
  rw [hdef, hpop]
  show (if a.due ≤ m.due then some (a, ts) else some (m, a :: rest)) = some (a, ts)
  rw [if_pos hle]

theorem popEarliest_cons_gt (a m : Timer) (ts rest : List Timer)
    (hpop : popEarliest ts = some (m, rest)) (hgt : ¬ a.due ≤ m.due) :
    popEarliest (a :: ts) = some (m, a :: rest) := by
  have hdef : popEarliest (a :: ts) = match popEarliest ts with
      | none => some (a, [])
      | some (m, rest) => if a.due ≤ m.due then some (a, ts) else some (m, a :: rest) := rfl
  rw [hdef, hpop]
  show (if a.due ≤ m.due then some (a, ts) else some (m, a :: rest)) = some (m, a :: rest)
  rw [if_neg hgt]

theorem stopStart_eq (t tp : ℚ) : stopStart t tp = S0x t tp := rfl

/-- Region A (`tp < t + 0.4`): fire order sea-teardown, noise no-op,
cleanup, wind-teardown. -/
theorem scene8_lifeA (t tp : ℚ) (h1 : t < tp) (hA : tp < t + 2 / 5) :
    (scene8 t tp).gens.map Gen.life = lifeList t tp := by
  have hp1 : popEarliest [tCl t, tSea tp, tNoi tp] = some (tSea tp, [tCl t, tNoi tp]) := by
    refine popEarliest_cons_gt _ _ _ _ (popEarliest_cons_le _ _ _ _ rfl ?_) ?_
    · show tp + 1 / 10 + 1 / 20 ≤ tp + 1 / 5
      linarith
    · show ¬ (t + 3 / 5 ≤ tp + 1 / 10 + 1 / 20)
      intro hcon; linarith
  have hp2 : popEarliest [tCl t, tNoi tp] = some (tNoi tp, [tCl t]) := by
    refine popEarliest_cons_gt _ _ _ _ rfl ?_
    show ¬ (t + 3 / 5 ≤ tp + 1 / 5)
    intro hcon; linarith
  have e1 : run 8 (stopStart t tp) = run 7 (X1x t tp) := by
    rw [stopStart_eq]
    exact run_succ_pop 7 (S0x t tp) (tSea tp) [tCl t, tNoi tp] [tCl t, tSea tp, tNoi tp] rfl hp1
  have e2 : run 7 (X1x t tp) = run 6 { X1x t tp with pending := [tCl t] } :=
    run_succ_pop 6 (X1x t tp) (tNoi tp) [tCl t] [tCl t, tNoi tp] rfl hp2
  have e3 : run 6 { X1x t tp with pending := [tCl t] } = run 5 (XA3x t tp) :=
    run_succ_pop 5 { X1x t tp with pending := [tCl t] } (tCl t) [] [tCl t] rfl rfl
  have e4 : run 5 (XA3x t tp) = run 4 (XA4x t tp) :=
    run_succ_pop 4 (XA3x t tp) (tWind t) [] [tWind t] rfl rfl
  have hs : scene8 t tp = XA4x t tp := e1.trans (e2.trans (e3.trans (e4.trans rfl)))
  rw [hs]
  rfl

/-- Region B (`t + 0.4 ≤ tp < t + 0.45`): fire order sea-teardown,
cleanup, noise no-op, wind-teardown. -/
theorem scene8_lifeB (t tp : ℚ) (hBlo : t + 2 / 5 ≤ tp) (hBhi : tp < t + 9 / 20) :
    (scene8 t tp).gens.map Gen.life = lifeList t tp := by
  have hp1 : popEarliest [tCl t, tSea tp, tNoi tp] = some (tSea tp, [tCl t, tNoi tp]) := by
    refine popEarliest_cons_gt _ _ _ _ (popEarliest_cons_le _ _ _ _ rfl ?_) ?_
    · show tp + 1 / 10 + 1 / 20 ≤ tp + 1 / 5
      linarith
    · show ¬ (t + 3 / 5 ≤ tp + 1 / 10 + 1 / 20)
      intro hcon; linarith
  have hp2 : popEarliest [tCl t, tNoi tp] = some (tCl t, [tNoi tp]) := by
    refine popEarliest_cons_le _ _ _ _ rfl ?_
    show t + 3 / 5 ≤ tp + 1 / 5
    linarith
  have hp3 : popEarliest [tNoi tp, tWind t] = some (tNoi tp, [tWind t]) := by
    refine popEarliest_cons_le _ _ _ _ rfl ?_
    show tp + 1 / 5 ≤ t + 3 / 5 + 1 / 10 + 1 / 20
    linarith
  have e1 : run 8 (stopStart t tp) = run 7 (X1x t tp) := by
    rw [stopStart_eq]
    exact run_succ_pop 7 (S0x t tp) (tSea tp) [tCl t, tNoi tp] [tCl t, tSea tp, tNoi tp] rfl hp1
  have e2 : run 7 (X1x t tp) = run 6 { XA3x t tp with pending := [tNoi tp, tWind t] } :=
    run_succ_pop 6 (X1x t tp) (tCl t) [tNoi tp] [tCl t, tNoi tp] rfl hp2
  have e3 : run 6 { XA3x t tp with pending := [tNoi tp, tWind t] } = run 5 (XA3x t tp) :=
    run_succ_pop 5 { XA3x t tp with pending := [tNoi tp, tWind t] } (tNoi tp) [tWind t]
      [tNoi tp, tWind t] rfl hp3
  have e4 : run 5 (XA3x t tp) = run 4 (XA4x t tp) :=
    run_succ_pop 4 (XA3x t tp) (tWind t) [] [tWind t] rfl rfl
  have hs : scene8 t tp = XA4x t tp := e1.trans (e2.trans (e3.trans (e4.trans rfl)))
  rw [hs]
  rfl

/-- Region C1 (`t + 0.45 ≤ tp ≤ t + 0.55`): fire order cleanup,
sea-teardown, noise no-op, duplicate sea-teardown, wind-teardown. -/
theorem scene8_lifeC1 (t tp : ℚ) (hClo : t + 9 / 20 ≤ tp) (hChi : tp ≤ t + 11 / 20) :
    (scene8 t tp).gens.map Gen.life = lifeList t tp := by
  have hp1 : popEarliest [tCl t, tSea tp, tNoi tp] = some (tCl t, [tSea tp, tNoi tp]) := by
    refine popEarliest_cons_le _ _ _ _ (popEarliest_cons_le _ _ _ _ rfl ?_) ?_
    · show tp + 1 / 10 + 1 / 20 ≤ tp + 1 / 5
      linarith
    · show t + 3 / 5 ≤ tp + 1 / 10 + 1 / 20
      linarith
  have hp2 : popEarliest [tSea tp, tNoi tp, tSea2 t, tWind t] =
      some (tSea tp, [tNoi tp, tSea2 t, tWind t]) := by
    refine popEarliest_cons_le _ _ _ _
      (popEarliest_cons_le _ _ _ _ (popEarliest_cons_le _ _ _ _ rfl le_rfl) ?_) ?_
    · show tp + 1 / 5 ≤ t + 3 / 5 + 1 / 10 + 1 / 20
      linarith
    · show tp + 1 / 10 + 1 / 20 ≤ tp + 1 / 5
      linarith
  have hp3 : popEarliest [tNoi tp, tSea2 t, tWind t] = some (tNoi tp, [tSea2 t, tWind t]) := by
    refine popEarliest_cons_le _ _ _ _ (popEarliest_cons_le _ _ _ _ rfl le_rfl) ?_
    show tp + 1 / 5 ≤ t + 3 / 5 + 1 / 10 + 1 / 20
    linarith
  have hp4 : popEarliest [tSea2 t, tWind t] = some (tSea2 t, [tWind t]) :=
    popEarliest_cons_le _ _ _ _ rfl le_rfl
  have e1 : run 8 (stopStart t tp) = run 7 (Y1x t tp) := by
    rw [stopStart_eq]
    exact run_succ_pop 7 (S0x t tp) (tCl t) [tSea tp, tNoi tp] [tCl t, tSea tp, tNoi tp] rfl hp1
  have e2 : run 7 (Y1x t tp) = run 6 (Y2x t tp) :=
    run_succ_pop 6 (Y1x t tp) (tSea tp) [tNoi tp, tSea2 t, tWind t]
      [tSea tp, tNoi tp, tSea2 t, tWind t] rfl hp2
  have e3 : run 6 (Y2x t tp) = run 5 { Y2x t tp with pending := [tSea2 t, tWind t] } :=
    run_succ_pop 5 (Y2x t tp) (tNoi tp) [tSea2 t, tWind t] [tNoi tp, tSea2 t, tWind t] rfl hp3
  have e4 : run 5 { Y2x t tp with pending := [tSea2 t, tWind t] } =
      run 4 { Y2x t tp with pending := [tWind t] } :=
    run_succ_pop 4 { Y2x t tp with pending := [tSea2 t, tWind t] } (tSea2 t) [tWind t]
      [tSea2 t, tWind t] rfl hp4
  have e5 : run 4 { Y2x t tp with pending := [tWind t] } = run 3 (YC5x t tp) :=
    run_succ_pop 3 { Y2x t tp with pending := [tWind t] } (tWind t) [] [tWind t] rfl rfl
  have hs : scene8 t tp = YC5x t tp := e1.trans (e2.trans (e3.trans (e4.trans (e5.trans rfl))))
  rw [hs]
  rfl

/-- Region C2 (`t + 0.55 < tp < t + 0.6`): fire order cleanup,
sea-teardown, duplicate sea-teardown, wind-teardown, noise no-op. -/
theorem scene8_lifeC2 (t tp : ℚ) (hDlo : t + 11 / 20 < tp) (h2 : tp < t + 3 / 5) :
    (scene8 t tp).gens.map Gen.life = lifeList t tp := by
  have hnoi : ¬ (tp + 1 / 5 ≤ t + 3 / 5 + 1 / 10 + 1 / 20) := by
    intro hcon; linarith
  have hp1 : popEarliest [tCl t, tSea tp, tNoi tp] = some (tCl t, [tSea tp, tNoi tp]) := by
    refine popEarliest_cons_le _ _ _ _ (popEarliest_cons_le _ _ _ _ rfl ?_) ?_
    · show tp + 1 / 10 + 1 / 20 ≤ tp + 1 / 5
      linarith
    · show t + 3 / 5 ≤ tp + 1 / 10 + 1 / 20
      linarith
  have hp2 : popEarliest [tSea tp, tNoi tp, tSea2 t, tWind t] =
      some (tSea tp, [tNoi tp, tSea2 t, tWind t]) := by
    refine popEarliest_cons_le _ _ _ _
      (popEarliest_cons_gt _ _ _ _ (popEarliest_cons_le _ _ _ _ rfl le_rfl) hnoi) ?_
    show tp + 1 / 10 + 1 / 20 ≤ t + 3 / 5 + 1 / 10 + 1 / 20
    linarith
  have hp3 : popEarliest [tNoi tp, tSea2 t, tWind t] = some (tSea2 t, [tNoi tp, tWind t]) :=
    popEarliest_cons_gt _ _ _ _ (popEarliest_cons_le _ _ _ _ rfl le_rfl) hnoi
  have hp4 : popEarliest [tNoi tp, tWind t] = some (tWind t, [tNoi tp]) :=
    popEarliest_cons_gt _ _ _ _ rfl hnoi
  have e1 : run 8 (stopStart t tp) = run 7 (Y1x t tp) := by
    rw [stopStart_eq]
    exact run_succ_pop 7 (S0x t tp) (tCl t) [tSea tp, tNoi tp] [tCl t, tSea tp, tNoi tp] rfl hp1
  have e2 : run 7 (Y1x t tp) = run 6 (Y2x t tp) :=
    run_succ_pop 6 (Y1x t tp) (tSea tp) [tNoi tp, tSea2 t, tWind t]
      [tSea tp, tNoi tp, tSea2 t, tWind t] rfl hp2
  have e3 : run 6 (Y2x t tp) = run 5 { Y2x t tp with pending := [tNoi tp, tWind t] } :=
    run_succ_pop 5 (Y2x t tp) (tSea2 t) [tNoi tp, tWind t] [tNoi tp, tSea2 t, tWind t] rfl hp3
  have e4 : run 5 { Y2x t tp with pending := [tNoi tp, tWind t] } =
      run 4 { YC5x t tp with pending := [tNoi tp] } :=
    run_succ_pop 4 { Y2x t tp with pending := [tNoi tp, tWind t] } (tWind t) [tNoi tp]
      [tNoi tp, tWind t] rfl hp4
  have e5 : run 4 { YC5x t tp with pending := [tNoi tp] } = run 3 (YC5x t tp) :=
    run_succ_pop 3 { YC5x t tp with pending := [tNoi tp] } (tNoi tp) [] [tNoi tp] rfl rfl
  have hs : scene8 t tp = YC5x t tp := e1.trans (e2.trans (e3.trans (e4.trans (e5.trans rfl))))
  rw [hs]
  rfl

/-- Any two distinct entries of the C8 lifetime list that share a class
have disjoint alive intervals: the old pair/noise stop at `tp` exactly
when the new ones start, and no second instance of a nature kind is
ever created. -/
theorem lifeList_pairwise (t tp : ℚ) :
    ∀ i j l1 l2, i < j → (lifeList t tp).get? i = some l1 →
      (lifeList t tp).get? j = some l2 → l1.1 = l2.1 →
      ∀ u, ¬ (aliveLife l1 u ∧ aliveLife l2 u) := by
  intro i j l1 l2 hij hg1 hg2 hcls u hcon
  have hjlen : j < 10 := by
    by_contra hge
    rw [List.get?_eq_none.mpr (by simp [lifeList]; omega)] at hg2
    exact Option.noConfusion hg2
  have hilen : i < 10 := lt_trans hij hjlen
  obtain ⟨⟨hb1, hs1⟩, hb2, hs2⟩ := hcon
  interval_cases j <;> interval_cases i <;>
    simp only [lifeList, List.get?, Option.some.injEq] at hg1 hg2 <;>
    subst hg1 <;> subst hg2 <;>
    simp only [Prod.fst] at hcls <;>
    first
      | exact absurd (hs1 _ rfl) (not_lt.mpr hb2)
      | exact absurd hcls (by simp)

/-- **C8**: for a `stop()` at time `t` immediately followed by a `start()`
at time `tp` before the stop fade/teardown has completed (any `tp` with
`t < tp < t + 0.6`, covering every interleaving of the pending stop,
nature-teardown and noise-stop timers with the new session's timers), no
layer kind ever has two simultaneously playing generators: whenever two
distinct generators of the resulting session history share a class (same
binaural channel, same nature kind and role, or same noise color), there
is no time at which both are alive. -/
theorem stop_then_start_no_duplicate_generators (t tp : ℚ)
    (h1 : t < tp) (h2 : tp < t + 3 / 5) :
    ∀ i j g1 g2, i < j →
      (scene8 t tp).gens.get? i = some g1 →
      (scene8 t tp).gens.get? j = some g2 →
      g1.cls = g2.cls →
      ∀ u, ¬ (g1.aliveAt u ∧ g2.aliveAt u) := by
  have hlife : (scene8 t tp).gens.map Gen.life = lifeList t tp := by
    rcases lt_or_le tp (t + 2 / 5) with hA | hge1
    · exact scene8_lifeA t tp h1 hA
    · rcases lt_or_le tp (t + 9 / 20) with hB | hge2
      · exact scene8_lifeB t tp hge1 hB
      · rcases le_or_lt tp (t + 11 / 20) with hC | hD
        · exact scene8_lifeC1 t tp hge2 hC
        · exact scene8_lifeC2 t tp hD h2
  intro i j g1 g2 hij hg1 hg2 hcls u hcon
  have hl1 : (lifeList t tp).get? i = some (Gen.life g1) := by
    rw [← hlife, List.get?_map, hg1]; rfl
  have hl2 : (lifeList t tp).get? j = some (Gen.life g2) := by
    rw [← hlife, List.get?_map, hg2]; rfl
  exact lifeList_pairwise t tp i j (Gen.life g1) (Gen.life g2) hij hl1 hl2 hcls u hcon

/-- Witness for C8 at `t = 0`, `tp = 1/2`. -/
theorem stop_then_start_no_duplicate_witness :
    (0 : ℚ) < 1 / 2 ∧ (1 / 2 : ℚ) < 0 + 3 / 5 ∧
      (∀ i j g1 g2, i < j →
        (scene8 0 (1 / 2)).gens.get? i = some g1 →
        (scene8 0 (1 / 2)).gens.get? j = some g2 →
        g1.cls = g2.cls →
        ∀ u, ¬ (g1.aliveAt u ∧ g2.aliveAt u)) :=
  ⟨by norm_num, by norm_num,
    stop_then_start_no_duplicate_generators 0 (1 / 2) (by norm_num) (by norm_num)⟩

end ZenBeats
